import Mathlib

/-!
# CasparCG `core/producer/frame/frame_transform.cpp`

A shallow embedding of the frame transform of the CasparCG server: the default
constructor, the composition operators `operator*=` and `operator*`, `tween`,
the comparison operators and the per-thread aspect-ratio slot.

The definitions are polymorphic in the type `K` that stands for the C++
`double` and use only the operations the source uses, so they evaluate over
`ℚ`.  The theorems on the arithmetic of the composition and of `tween` are
stated over `ℝ` (exact arithmetic, no rounding, no NaN, no infinities), with
`std::cos` and `std::sin` instantiated by `Real.cos` and `Real.sin`.  The
theorems on `operator<`, `operator==` and `operator!=`, which compare object
representations with `memcmp`, are stated for an arbitrary object
representation and, where the bytes matter, over `binary64`, the bit patterns
of IEEE-754 doubles.  Where a statement over `ℝ` rests on an identity that
rounding breaks, it says "over exact real arithmetic", and the rounding is
shown on `whole_double`, the doubles that hold whole numbers, with correctly
rounded sums and differences.
-/

namespace caspar.core

/-! ## Data model -/

/-- Modelled from the spec: the enumeration `field_mode::type`, declared in a
header that is not part of the sources at hand.  The spec describes it as a
bitmask of capabilities in which the default value (`progressive` in the
constructor) has all bits set: the two bits are `lower` and `upper`, and
`progressive` is both of them. -/
inductive field_mode where
  | empty
  | lower
  | upper
  | progressive
  deriving DecidableEq

/-- The integer value of an enumerator. -/
def field_mode.value : field_mode → Nat
  | .empty => 0
  | .lower => 1
  | .upper => 2
  | .progressive => 3

/-- The conversion `static_cast<field_mode::type>(n)`, for `n` within the
range of the enumeration. -/
def field_mode.cast (n : Nat) : field_mode :=
  if n % 4 = 0 then .empty
  else if n % 4 = 1 then .lower
  else if n % 4 = 2 then .upper
  else .progressive

/-- The expression `static_cast<field_mode::type>(a & b)`. -/
def field_mode.and (a b : field_mode) : field_mode :=
  field_mode.cast (a.value &&& b.value)

/-- Modelled from the spec: the record `levels`, declared in a header that is
not part of the sources at hand; its five fields are the ones `operator*=`
and `tween` read and write. -/
structure levels (K : Type) where
  min_input : K
  max_input : K
  gamma : K
  min_output : K
  max_output : K

/-- Modelled from the spec: the default constructor of `levels`, whose
defaults the spec gives as 0 / 1 / 0 / 1 / 1 for min_input, max_input,
min_output, max_output and gamma. -/
def levels.ctor {K : Type} [Zero K] [One K] : levels K :=
  { min_input := 0, max_input := 1, gamma := 1, min_output := 0, max_output := 1 }

/-- Modelled from the spec: the record `frame_transform`, declared in a header
that is not part of the sources at hand; the fields are the ones that the
constructor, `operator*=` and `tween` initialise, read and write.  A
`boost::array<double, 2>` is a pair, index 0 first. -/
structure frame_transform (K : Type) where
  volume : K
  opacity : K
  brightness : K
  contrast : K
  saturation : K
  anchor : K × K
  fill_translation : K × K
  fill_scale : K × K
  clip_translation : K × K
  clip_scale : K × K
  angle : K
  levels : levels K
  field_mode : field_mode
  is_key : Bool
  is_mix : Bool

/-- The constructor `frame_transform::frame_transform()`. -/
def frame_transform.ctor {K : Type} [Zero K] [One K] : frame_transform K :=
  { volume := 1
    opacity := 1
    brightness := 1
    contrast := 1
    saturation := 1
    angle := 0
    field_mode := field_mode.progressive
    is_key := false
    is_mix := false
    levels := levels.ctor
    anchor := (0, 0)
    fill_translation := (0, 0)
    fill_scale := (1, 1)
    clip_translation := (0, 0)
    clip_scale := (1, 1) }

/-! ## The aspect-ratio slot of one thread

The `boost::thread_specific_ptr<double>` of the calling thread is an
`Option K`: `none` while the thread has never touched it. -/

/-- The function `get_thread_local_aspect_ratio`: creates the slot with 1.0
when it is unset, and returns a reference to it.  The model returns the value
the reference points to and the slot after the call. -/
def get_thread_local_aspect_ratio {K : Type} [One K]
    (slot : Option K) : K × Option K :=
  match slot with
  | none => (1, some 1)
  | some v => (v, some v)

/-- The function `set_current_aspect_ratio`: writes through the reference
that `get_thread_local_aspect_ratio` returns. -/
def set_current_aspect_ratio {K : Type} [One K]
    (aspect_ratio : K) (slot : Option K) : Option K :=
  (get_thread_local_aspect_ratio slot).2.map (fun _ => aspect_ratio)

/-- The function `get_current_aspect_ratio`: the value read and the slot after
the call. -/
def get_current_aspect_ratio {K : Type} [One K]
    (slot : Option K) : K × Option K :=
  get_thread_local_aspect_ratio slot

/-! ## Composition -/

/-- The operator `frame_transform::operator*=`: `self` is `*this` before the
call, the result is `*this` after it together with the slot after the call.
`cos` and `sin` stand for `std::cos` and `std::sin`.  Every right-hand side
reads the fields of `self` as they are when the statement runs: `anchor` and
`fill_translation` are updated before `fill_scale`, `clip_translation` before
`clip_scale`, and the rotation is computed before `angle` is updated. -/
def frame_transform.mul_assign {K : Type} [Add K] [Sub K] [Mul K] [Div K] [Max K] [Min K]
    [One K] (cos sin : K → K)
    (slot : Option K) (self other : frame_transform K) : frame_transform K × Option K :=
  let cur := get_current_aspect_ratio slot
  let aspect_ratio := cur.1
  let orig_x := other.fill_translation.1
  let orig_y := other.fill_translation.2 / aspect_ratio
  let rotated0 := orig_x * cos self.angle - orig_y * sin self.angle
  let rotated1 := (orig_x * sin self.angle + orig_y * cos self.angle) * aspect_ratio
  ({ volume := self.volume * other.volume
     opacity := self.opacity * other.opacity
     brightness := self.brightness * other.brightness
     contrast := self.contrast * other.contrast
     saturation := self.saturation * other.saturation
     anchor := (self.anchor.1 + other.anchor.1 * self.fill_scale.1,
                self.anchor.2 + other.anchor.2 * self.fill_scale.2)
     fill_translation := (self.fill_translation.1 + rotated0 * self.fill_scale.1,
                          self.fill_translation.2 + rotated1 * self.fill_scale.2)
     fill_scale := (self.fill_scale.1 * other.fill_scale.1,
                    self.fill_scale.2 * other.fill_scale.2)
     clip_translation := (self.clip_translation.1 + other.clip_translation.1 * self.clip_scale.1,
                          self.clip_translation.2 + other.clip_translation.2 * self.clip_scale.2)
     clip_scale := (self.clip_scale.1 * other.clip_scale.1,
                    self.clip_scale.2 * other.clip_scale.2)
     angle := self.angle + other.angle
     levels :=
       { min_input := max self.levels.min_input other.levels.min_input
         max_input := min self.levels.max_input other.levels.max_input
         min_output := max self.levels.min_output other.levels.min_output
         max_output := min self.levels.max_output other.levels.max_output
         gamma := self.levels.gamma * other.levels.gamma }
     field_mode := field_mode.and self.field_mode other.field_mode
     is_key := self.is_key || other.is_key
     is_mix := self.is_mix || other.is_mix },
   cur.2)

/-- The operator `frame_transform::operator*`: `operator*=` on a copy of
`*this`. -/
def frame_transform.mul {K : Type} [Add K] [Sub K] [Mul K] [Div K] [Max K] [Min K] [One K]
    (cos sin : K → K)
    (slot : Option K) (self other : frame_transform K) : frame_transform K × Option K :=
  frame_transform.mul_assign cos sin slot self other

/-! ## Tween -/

/-- The local function `do_tween` of `tween`. -/
def do_tween {K : Type} [Sub K]
    (time source dest duration : K) (tweener : K → K → K → K → K) : K :=
  tweener time source (dest - source) duration

/-- The function `tween`; `tweener` is the `tweener_t` callable.  The result
starts as a default-constructed transform, every field of which is then
assigned. -/
def tween {K : Type} [Zero K] [One K] [Sub K] (time : K) (source dest : frame_transform K)
    (duration : K) (tweener : K → K → K → K → K) : frame_transform K :=
  { (frame_transform.ctor : frame_transform K) with
    volume := do_tween time source.volume dest.volume duration tweener
    brightness := do_tween time source.brightness dest.brightness duration tweener
    contrast := do_tween time source.contrast dest.contrast duration tweener
    saturation := do_tween time source.saturation dest.saturation duration tweener
    opacity := do_tween time source.opacity dest.opacity duration tweener
    anchor := (do_tween time source.anchor.1 dest.anchor.1 duration tweener,
               do_tween time source.anchor.2 dest.anchor.2 duration tweener)
    fill_translation :=
      (do_tween time source.fill_translation.1 dest.fill_translation.1 duration tweener,
       do_tween time source.fill_translation.2 dest.fill_translation.2 duration tweener)
    fill_scale := (do_tween time source.fill_scale.1 dest.fill_scale.1 duration tweener,
                   do_tween time source.fill_scale.2 dest.fill_scale.2 duration tweener)
    clip_translation :=
      (do_tween time source.clip_translation.1 dest.clip_translation.1 duration tweener,
       do_tween time source.clip_translation.2 dest.clip_translation.2 duration tweener)
    clip_scale := (do_tween time source.clip_scale.1 dest.clip_scale.1 duration tweener,
                   do_tween time source.clip_scale.2 dest.clip_scale.2 duration tweener)
    angle := do_tween time source.angle dest.angle duration tweener
    levels :=
      { max_input := do_tween time source.levels.max_input dest.levels.max_input duration tweener
        min_input := do_tween time source.levels.min_input dest.levels.min_input duration tweener
        max_output :=
          do_tween time source.levels.max_output dest.levels.max_output duration tweener
        min_output :=
          do_tween time source.levels.min_output dest.levels.min_output duration tweener
        gamma := do_tween time source.levels.gamma dest.levels.gamma duration tweener }
    field_mode := field_mode.and source.field_mode dest.field_mode
    is_key := source.is_key || dest.is_key
    is_mix := source.is_mix || dest.is_mix }

/-! ## Chains of compositions -/

/-- The root-to-leaf chained multiplication of the spec, section 4.1:
`root * t1 * t2 * ...`, each product taken with `operator*` on the slot the
previous one left. -/
def compose_chain {K : Type} [Add K] [Sub K] [Mul K] [Div K] [Max K] [Min K] [One K]
    (cos sin : K → K)
    (slot : Option K) (root : frame_transform K) (chain : List (frame_transform K)) :
    frame_transform K × Option K :=
  chain.foldl (fun acc t => frame_transform.mul cos sin acc.2 acc.1 t) (root, slot)

/-! ## The interpolated fields -/

/-- The transforms `A` and `B` agree on every field that `tween` interpolates:
the fields assigned through `do_tween`, that is all of them except
`field_mode`, `is_key` and `is_mix`. -/
def same_continuous_fields {K : Type} (A B : frame_transform K) : Prop :=
  A.volume = B.volume ∧
  A.brightness = B.brightness ∧
  A.contrast = B.contrast ∧
  A.saturation = B.saturation ∧
  A.opacity = B.opacity ∧
  A.anchor = B.anchor ∧
  A.fill_translation = B.fill_translation ∧
  A.fill_scale = B.fill_scale ∧
  A.clip_translation = B.clip_translation ∧
  A.clip_scale = B.clip_scale ∧
  A.angle = B.angle ∧
  A.levels.min_input = B.levels.min_input ∧
  A.levels.max_input = B.levels.max_input ∧
  A.levels.min_output = B.levels.min_output ∧
  A.levels.max_output = B.levels.max_output ∧
  A.levels.gamma = B.levels.gamma

/-! ## The comparison operators

`operator<` and `operator==` hand the addresses of two transforms to `memcmp`,
which reads the object representations: the `sizeof(frame_transform)` bytes at
each address.  A region of memory is a function from byte offsets to bytes.
The object representation depends on the declaration of the record, which is
in a header that is not part of the sources at hand, and on the platform; the
operators therefore take it as the parameter `repr`, and `sizeof(frame_transform)`
as the parameter `size`. -/

/-- The C library function `memcmp(lhs, rhs, count)`: the first `count` bytes
of the two regions are compared as unsigned values, and the first pair of
bytes that differ decides: negative when the byte of `lhs` is the smaller one,
positive when it is the greater one, zero when no pair differs.  The bytes
before offset `count` are looked at first, then the byte at offset `count`. -/
def memcmp (lhs rhs : Nat → Nat) : Nat → Int
  | 0 => 0
  | count + 1 =>
    if memcmp lhs rhs count ≠ 0 then memcmp lhs rhs count
    else if lhs count < rhs count then -1
    else if rhs count < lhs count then 1
    else 0

/-- The operator `operator<` on transforms. -/
def operator_lt {K : Type} (repr : frame_transform K → Nat → Nat) (size : Nat)
    (lhs rhs : frame_transform K) : Bool :=
  decide (memcmp (repr lhs) (repr rhs) size < 0)

/-- The operator `operator==` on transforms. -/
def operator_eq {K : Type} (repr : frame_transform K → Nat → Nat) (size : Nat)
    (lhs rhs : frame_transform K) : Bool :=
  decide (memcmp (repr lhs) (repr rhs) size = 0)

/-- The operator `operator!=` on transforms. -/
def operator_ne {K : Type} (repr : frame_transform K → Nat → Nat) (size : Nat)
    (lhs rhs : frame_transform K) : Bool :=
  !(operator_eq repr size lhs rhs)

/-! ## Doubles as bit patterns

The object representation of a `double` on the platform the server is built
for (x86, little-endian): the eight bytes of the IEEE-754 binary64 encoding,
least significant byte first.  A transform whose fields are bit patterns is a
`frame_transform binary64`. -/

/-- The eight bytes of a `double`, `b0` at the lowest address. -/
structure binary64 where
  b0 : Fin 256
  b1 : Fin 256
  b2 : Fin 256
  b3 : Fin 256
  b4 : Fin 256
  b5 : Fin 256
  b6 : Fin 256
  b7 : Fin 256
  deriving DecidableEq

/-- The bytes of a `double` in address order. -/
def binary64.bytes (x : binary64) : List Nat :=
  [x.b0.val, x.b1.val, x.b2.val, x.b3.val, x.b4.val, x.b5.val, x.b6.val, x.b7.val]

/-- The 64-bit word the eight bytes encode, little-endian. -/
def binary64.bits (x : binary64) : Nat :=
  x.b0.val + 256 * (x.b1.val + 256 * (x.b2.val + 256 * (x.b3.val + 256 * (x.b4.val +
    256 * (x.b5.val + 256 * (x.b6.val + 256 * x.b7.val))))))

/-- The sign bit, bit 63. -/
def binary64.sign (x : binary64) : Bool :=
  decide (2 ^ 63 ≤ x.bits)

/-- The biased exponent, bits 52 to 62. -/
def binary64.exponent (x : binary64) : Nat :=
  x.bits / 2 ^ 52 % 2048

/-- The fraction, bits 0 to 51. -/
def binary64.fraction (x : binary64) : Nat :=
  x.bits % 2 ^ 52

/-- The pattern is a NaN: exponent all ones and a non-zero fraction. -/
def binary64.is_nan (x : binary64) : Bool :=
  decide (x.exponent = 2047) && decide (x.fraction ≠ 0)

/-- The number a finite pattern denotes: `±fraction * 2^(-1074)` for a zero or
subnormal pattern (exponent 0), `±(2^52 + fraction) * 2^(exponent - 1075)` for
a normal one; `none` for the infinities and the NaNs. -/
def binary64.value (x : binary64) : Option ℚ :=
  if x.exponent = 2047 then none
  else if x.exponent = 0 then
    some ((if x.sign then -1 else 1) * (x.fraction : ℚ) * (2 : ℚ) ^ (-1074 : ℤ))
  else
    some ((if x.sign then -1 else 1) * ((2 ^ 52 + x.fraction : Nat) : ℚ) *
      (2 : ℚ) ^ ((x.exponent : ℤ) - 1075))

/-- The sign-magnitude integer of a pattern: the low 63 bits, negated when the
sign bit is set.  On patterns that are not NaNs the numeric order of the
doubles, infinities included, is the order of these integers, and the two
zeros both have the integer 0. -/
def binary64.key (x : binary64) : Int :=
  if x.sign then -((x.bits % 2 ^ 63 : Nat) : Int) else ((x.bits % 2 ^ 63 : Nat) : Int)

/-- The C++ comparison `a == b` of two doubles: false when either is a NaN,
otherwise equality of the numbers denoted, so `+0.0 == -0.0`. -/
def binary64.num_eq (a b : binary64) : Bool :=
  !a.is_nan && !b.is_nan && decide (a.key = b.key)

/-- The C++ comparison `a < b` of two doubles: false when either is a NaN. -/
def binary64.num_lt (a b : binary64) : Bool :=
  !a.is_nan && !b.is_nan && decide (a.key < b.key)

/-- The literal `0.0`: all bytes zero. -/
instance binary64.instZero : Zero binary64 :=
  ⟨⟨0, 0, 0, 0, 0, 0, 0, 0⟩⟩

/-- The literal `1.0`: the word `0x3FF0000000000000`. -/
instance binary64.instOne : One binary64 :=
  ⟨⟨0, 0, 0, 0, 0, 0, 0xF0, 0x3F⟩⟩

/-- The double `-0.0`: the word `0x8000000000000000`. -/
def binary64.neg_zero : binary64 :=
  ⟨0, 0, 0, 0, 0, 0, 0, 0x80⟩

/-- The double `2.0`: the word `0x4000000000000000`. -/
def binary64.two : binary64 :=
  ⟨0, 0, 0, 0, 0, 0, 0, 0x40⟩

/-- A quiet NaN: the word `0x7FF8000000000000`. -/
def binary64.nan : binary64 :=
  ⟨0, 0, 0, 0, 0, 0, 0xF8, 0x7F⟩

/-! ## The object representation on x86-64

The layout assumed for the record: the fields in the order of the structure
above, each `double` on eight bytes, `levels` as its five doubles, the
enumeration as a four-byte integer, each `bool` as one byte holding 0 or 1,
and two trailing padding bytes up to the alignment of eight, 176 bytes in
all.  The source leaves the padding bytes indeterminate; the model fixes them
to zero. -/

/-- The bytes of a transform in address order. -/
def object_bytes_list (T : frame_transform binary64) : List Nat :=
  T.volume.bytes ++
  T.opacity.bytes ++
  T.brightness.bytes ++
  T.contrast.bytes ++
  T.saturation.bytes ++
  T.anchor.1.bytes ++
  T.anchor.2.bytes ++
  T.fill_translation.1.bytes ++
  T.fill_translation.2.bytes ++
  T.fill_scale.1.bytes ++
  T.fill_scale.2.bytes ++
  T.clip_translation.1.bytes ++
  T.clip_translation.2.bytes ++
  T.clip_scale.1.bytes ++
  T.clip_scale.2.bytes ++
  T.angle.bytes ++
  T.levels.min_input.bytes ++
  T.levels.max_input.bytes ++
  T.levels.gamma.bytes ++
  T.levels.min_output.bytes ++
  T.levels.max_output.bytes ++
  [T.field_mode.value, 0, 0, 0] ++ [T.is_key.toNat] ++ [T.is_mix.toNat] ++ [0, 0]

/-- The object representation of a transform: the byte at each offset. -/
def object_bytes (T : frame_transform binary64) (offset : Nat) : Nat :=
  (object_bytes_list T).getD offset 0

/-- The value of `sizeof(frame_transform)` for this layout. -/
def sizeof_frame_transform : Nat :=
  176

/-! ## The comparisons the spec asks for -/

/-- Field-wise equality in the words of the spec, section 4.3: every field of
`T1` equals the corresponding field of `T2` as a numeric or boolean value. -/
def fields_equal (T1 T2 : frame_transform binary64) : Bool :=
  binary64.num_eq T1.volume T2.volume &&
  binary64.num_eq T1.opacity T2.opacity &&
  binary64.num_eq T1.brightness T2.brightness &&
  binary64.num_eq T1.contrast T2.contrast &&
  binary64.num_eq T1.saturation T2.saturation &&
  binary64.num_eq T1.anchor.1 T2.anchor.1 &&
  binary64.num_eq T1.anchor.2 T2.anchor.2 &&
  binary64.num_eq T1.fill_translation.1 T2.fill_translation.1 &&
  binary64.num_eq T1.fill_translation.2 T2.fill_translation.2 &&
  binary64.num_eq T1.fill_scale.1 T2.fill_scale.1 &&
  binary64.num_eq T1.fill_scale.2 T2.fill_scale.2 &&
  binary64.num_eq T1.clip_translation.1 T2.clip_translation.1 &&
  binary64.num_eq T1.clip_translation.2 T2.clip_translation.2 &&
  binary64.num_eq T1.clip_scale.1 T2.clip_scale.1 &&
  binary64.num_eq T1.clip_scale.2 T2.clip_scale.2 &&
  binary64.num_eq T1.angle T2.angle &&
  binary64.num_eq T1.levels.min_input T2.levels.min_input &&
  binary64.num_eq T1.levels.max_input T2.levels.max_input &&
  binary64.num_eq T1.levels.gamma T2.levels.gamma &&
  binary64.num_eq T1.levels.min_output T2.levels.min_output &&
  binary64.num_eq T1.levels.max_output T2.levels.max_output &&
  decide (T1.field_mode = T2.field_mode) && (T1.is_key == T2.is_key) &&
  (T1.is_mix == T2.is_mix)

/-- Lexicographic comparison of a list of field comparisons, each given as the
pair (field of the left operand is less, the two fields are equal): the first
field that is not equal decides. -/
def lexicographic : List (Bool × Bool) → Bool
  | [] => false
  | (lt, eq) :: rest => lt || (eq && lexicographic rest)

/-- Lexicographic comparison of the field values in the words of the spec,
section 4.3, in the field order of the structure above. -/
def lexicographic_lt (T1 T2 : frame_transform binary64) : Bool :=
  lexicographic
    [(binary64.num_lt T1.volume T2.volume, binary64.num_eq T1.volume T2.volume),
     (binary64.num_lt T1.opacity T2.opacity, binary64.num_eq T1.opacity T2.opacity),
     (binary64.num_lt T1.brightness T2.brightness, binary64.num_eq T1.brightness T2.brightness),
     (binary64.num_lt T1.contrast T2.contrast, binary64.num_eq T1.contrast T2.contrast),
     (binary64.num_lt T1.saturation T2.saturation, binary64.num_eq T1.saturation T2.saturation),
     (binary64.num_lt T1.anchor.1 T2.anchor.1, binary64.num_eq T1.anchor.1 T2.anchor.1),
     (binary64.num_lt T1.anchor.2 T2.anchor.2, binary64.num_eq T1.anchor.2 T2.anchor.2),
     (binary64.num_lt T1.fill_translation.1 T2.fill_translation.1, binary64.num_eq T1.fill_translation.1 T2.fill_translation.1),
     (binary64.num_lt T1.fill_translation.2 T2.fill_translation.2, binary64.num_eq T1.fill_translation.2 T2.fill_translation.2),
     (binary64.num_lt T1.fill_scale.1 T2.fill_scale.1, binary64.num_eq T1.fill_scale.1 T2.fill_scale.1),
     (binary64.num_lt T1.fill_scale.2 T2.fill_scale.2, binary64.num_eq T1.fill_scale.2 T2.fill_scale.2),
     (binary64.num_lt T1.clip_translation.1 T2.clip_translation.1, binary64.num_eq T1.clip_translation.1 T2.clip_translation.1),
     (binary64.num_lt T1.clip_translation.2 T2.clip_translation.2, binary64.num_eq T1.clip_translation.2 T2.clip_translation.2),
     (binary64.num_lt T1.clip_scale.1 T2.clip_scale.1, binary64.num_eq T1.clip_scale.1 T2.clip_scale.1),
     (binary64.num_lt T1.clip_scale.2 T2.clip_scale.2, binary64.num_eq T1.clip_scale.2 T2.clip_scale.2),
     (binary64.num_lt T1.angle T2.angle, binary64.num_eq T1.angle T2.angle),
     (binary64.num_lt T1.levels.min_input T2.levels.min_input, binary64.num_eq T1.levels.min_input T2.levels.min_input),
     (binary64.num_lt T1.levels.max_input T2.levels.max_input, binary64.num_eq T1.levels.max_input T2.levels.max_input),
     (binary64.num_lt T1.levels.gamma T2.levels.gamma, binary64.num_eq T1.levels.gamma T2.levels.gamma),
     (binary64.num_lt T1.levels.min_output T2.levels.min_output, binary64.num_eq T1.levels.min_output T2.levels.min_output),
     (binary64.num_lt T1.levels.max_output T2.levels.max_output, binary64.num_eq T1.levels.max_output T2.levels.max_output),
     (decide (T1.field_mode.value < T2.field_mode.value),
      decide (T1.field_mode = T2.field_mode)),
     (decide (T1.is_key.toNat < T2.is_key.toNat), T1.is_key == T2.is_key),
     (decide (T1.is_mix.toNat < T2.is_mix.toNat), T1.is_mix == T2.is_mix)]

/-! ## Rounded arithmetic on whole-number doubles

The arithmetic of the source is IEEE-754 binary64 arithmetic: every sum and
difference is the exact result rounded to the nearest double, ties to the even
significand.  On doubles that hold whole numbers the exact sum and difference
are whole numbers again, and so is the double they round to, which makes the
rounded operations computable on integers.  Overflow beyond the largest
double is not modelled. -/

/-- The number of bits by which `a` exceeds 53 bits: the number of halvings
that bring `a` below `2^53`.  The second argument bounds the number of steps. -/
def excess_bits (a : Nat) : Nat → Nat
  | 0 => 0
  | fuel + 1 => if a < 2 ^ 53 then 0 else excess_bits (a / 2) fuel + 1

/-- The double nearest to the whole number `n`, ties to the even significand:
with `shift` the number of bits by which `|n|` exceeds 53 bits, `|n|` is cut
to its leading 53 bits `q`, and `q` is increased by one when the bits cut off
are more than half a unit of `q`, or exactly half a unit with `q` odd.  A
whole number below `2^53` in absolute value is a double and is returned
unchanged. -/
def round_to_double (n : Int) : Int :=
  let shift := excess_bits n.natAbs 1024
  let q := n.natAbs / 2 ^ shift
  let r := n.natAbs % 2 ^ shift
  let up := decide (2 ^ shift < 2 * r) || (decide (2 * r = 2 ^ shift) && decide (q % 2 = 1))
  Int.sign n * (((if up then q + 1 else q) * 2 ^ shift : Nat) : Int)

/-- A double that holds a whole number, given by that number. -/
structure whole_double where
  value : Int
  deriving DecidableEq

/-- The literal `0.0`. -/
instance whole_double.instZero : Zero whole_double :=
  ⟨⟨0⟩⟩

/-- The literal `1.0`. -/
instance whole_double.instOne : One whole_double :=
  ⟨⟨1⟩⟩

/-- The sum of two doubles: the exact sum, rounded. -/
instance whole_double.instAdd : Add whole_double :=
  ⟨fun a b => ⟨round_to_double (a.value + b.value)⟩⟩

/-- The difference of two doubles: the exact difference, rounded. -/
instance whole_double.instSub : Sub whole_double :=
  ⟨fun a b => ⟨round_to_double (a.value - b.value)⟩⟩

/-! ## Shared lemmas -/

theorem get_current_aspect_ratio_snd {K : Type} [LinearOrderedField K] (slot : Option K) :
    (get_current_aspect_ratio slot).2 = some (get_current_aspect_ratio slot).1 := by
  cases slot <;> rfl

theorem get_current_aspect_ratio_some {K : Type} [LinearOrderedField K] (v : K) :
    get_current_aspect_ratio (some v) = (v, some v) := rfl

theorem get_current_aspect_ratio_some_fst {K : Type} [LinearOrderedField K] (v : K) :
    (get_current_aspect_ratio (some v)).1 = v := rfl

theorem frame_transform.mul_snd {K : Type} [LinearOrderedField K] (cos sin : K → K)
    (slot : Option K) (P C : frame_transform K) :
    (frame_transform.mul cos sin slot P C).2 = some (get_current_aspect_ratio slot).1 := by
  cases slot <;> rfl

theorem frame_transform.ext_fields {K : Type} {S T : frame_transform K}
    (h1 : S.volume = T.volume) (h2 : S.opacity = T.opacity) (h3 : S.brightness = T.brightness)
    (h4 : S.contrast = T.contrast) (h5 : S.saturation = T.saturation)
    (h6 : S.anchor = T.anchor) (h7 : S.fill_translation = T.fill_translation)
    (h8 : S.fill_scale = T.fill_scale) (h9 : S.clip_translation = T.clip_translation)
    (h10 : S.clip_scale = T.clip_scale) (h11 : S.angle = T.angle)
    (h12 : S.levels.min_input = T.levels.min_input)
    (h13 : S.levels.max_input = T.levels.max_input)
    (h14 : S.levels.gamma = T.levels.gamma)
    (h15 : S.levels.min_output = T.levels.min_output)
    (h16 : S.levels.max_output = T.levels.max_output)
    (h17 : S.field_mode = T.field_mode) (h18 : S.is_key = T.is_key)
    (h19 : S.is_mix = T.is_mix) : S = T := by
  cases S with
  | mk _ _ _ _ _ _ _ _ _ _ _ sl _ _ _ =>
    cases T with
    | mk _ _ _ _ _ _ _ _ _ _ _ tl _ _ _ =>
      cases sl
      cases tl
      simp only [frame_transform.mk.injEq, levels.mk.injEq] at *
      simp [*]

theorem field_mode.and_progressive (m : field_mode) :
    field_mode.and m field_mode.progressive = m := by
  cases m <;> rfl

theorem field_mode.progressive_and (m : field_mode) :
    field_mode.and field_mode.progressive m = m := by
  cases m <;> rfl

theorem field_mode.and_self (m : field_mode) : field_mode.and m m = m := by
  cases m <;> rfl

theorem field_mode.and_assoc (a b c : field_mode) :
    field_mode.and (field_mode.and a b) c = field_mode.and a (field_mode.and b c) := by
  cases a <;> cases b <;> cases c <;> rfl

/-! ## Lemmas on `memcmp` -/

theorem memcmp_values (a b : Nat → Nat) (n : Nat) :
    memcmp a b n = 0 ∨ memcmp a b n = -1 ∨ memcmp a b n = 1 := by
  induction n with
  | zero => exact Or.inl rfl
  | succ n ih =>
    simp only [memcmp]
    split_ifs with h1 h2 h3
    · rcases ih with h | h | h
      · exact absurd h h1
      · exact Or.inr (Or.inl h)
      · exact Or.inr (Or.inr h)
    · exact Or.inr (Or.inl rfl)
    · exact Or.inr (Or.inr rfl)
    · exact Or.inl rfl

theorem memcmp_succ_eq_zero (a b : Nat → Nat) (n : Nat) :
    memcmp a b (n + 1) = 0 ↔ memcmp a b n = 0 ∧ a n = b n := by
  simp only [memcmp]
  split_ifs with h1 h2 h3
  · simp [h1]
  · simp only [not_not] at h1
    simp [h1]
    omega
  · simp only [not_not] at h1
    simp [h1]
    omega
  · simp only [not_not] at h1
    simp [h1]
    omega

theorem memcmp_succ_neg (a b : Nat → Nat) (n : Nat) :
    memcmp a b (n + 1) < 0 ↔ memcmp a b n < 0 ∨ (memcmp a b n = 0 ∧ a n < b n) := by
  simp only [memcmp]
  split_ifs with h1 h2 h3
  · constructor
    · intro h
      exact Or.inl h
    · rintro (h | ⟨h, _⟩)
      · exact h
      · exact absurd h h1
  · simp only [not_not] at h1
    simp [h1, h2]
  · simp only [not_not] at h1
    simp [h1, h2]
  · simp only [not_not] at h1
    simp [h1, h2]

theorem memcmp_self (a : Nat → Nat) (n : Nat) : memcmp a a n = 0 := by
  induction n with
  | zero => rfl
  | succ n ih => exact (memcmp_succ_eq_zero a a n).mpr ⟨ih, rfl⟩

theorem memcmp_eq_zero_iff (a b : Nat → Nat) (n : Nat) :
    memcmp a b n = 0 ↔ ∀ i, i < n → a i = b i := by
  induction n with
  | zero => simp [memcmp]
  | succ n ih =>
    rw [memcmp_succ_eq_zero, ih]
    constructor
    · rintro ⟨h, hn⟩ i hi
      rcases Nat.lt_succ_iff_lt_or_eq.mp hi with hlt | heq
      · exact h i hlt
      · rw [heq]
        exact hn
    · intro h
      exact ⟨fun i hi => h i (Nat.lt_succ_of_lt hi), h n (Nat.lt_succ_self n)⟩

theorem memcmp_neg_iff (a b : Nat → Nat) (n : Nat) :
    memcmp a b n < 0 ↔ ∃ i, i < n ∧ (∀ j, j < i → a j = b j) ∧ a i < b i := by
  induction n with
  | zero => simp [memcmp]
  | succ n ih =>
    rw [memcmp_succ_neg, ih, memcmp_eq_zero_iff]
    constructor
    · rintro (⟨i, hi, hpre, hlt⟩ | ⟨hpre, hlt⟩)
      · exact ⟨i, Nat.lt_succ_of_lt hi, hpre, hlt⟩
      · exact ⟨n, Nat.lt_succ_self n, hpre, hlt⟩
    · rintro ⟨i, hi, hpre, hlt⟩
      rcases Nat.lt_succ_iff_lt_or_eq.mp hi with h | h
      · exact Or.inl ⟨i, h, hpre, hlt⟩
      · subst h
        exact Or.inr ⟨hpre, hlt⟩

theorem memcmp_swap_neg (a b : Nat → Nat) (n : Nat) :
    memcmp b a n < 0 ↔ 0 < memcmp a b n := by
  induction n with
  | zero => simp [memcmp]
  | succ n ih =>
    rw [memcmp_succ_neg, ih]
    have hz : memcmp b a n = 0 ↔ memcmp a b n = 0 := by
      rw [memcmp_eq_zero_iff, memcmp_eq_zero_iff]
      exact ⟨fun h i hi => (h i hi).symm, fun h i hi => (h i hi).symm⟩
    rw [hz]
    simp only [memcmp]
    rcases memcmp_values a b n with h | h | h
    · simp only [h, ne_eq, not_true_eq_false, if_false, lt_self_iff_false, false_or, true_and]
      split_ifs with h2 h3
      · simp
        omega
      · simp [h3]
      · simp
        omega
    · simp [h]
    · simp [h]

theorem memcmp_lt_trans (a b c : Nat → Nat) (n : Nat)
    (hab : memcmp a b n < 0) (hbc : memcmp b c n < 0) : memcmp a c n < 0 := by
  rw [memcmp_neg_iff] at hab hbc ⊢
  obtain ⟨i, hi, hpi, hli⟩ := hab
  obtain ⟨k, hk, hpk, hlk⟩ := hbc
  rcases lt_trichotomy i k with h | h | h
  · refine ⟨i, hi, fun j hj => ?_, ?_⟩
    · rw [hpi j hj]
      exact hpk j (lt_trans hj h)
    · rw [← hpk i h]
      exact hli
  · subst h
    refine ⟨i, hi, fun j hj => ?_, lt_trans hli hlk⟩
    rw [hpi j hj]
    exact hpk j hj
  · refine ⟨k, hk, fun j hj => ?_, ?_⟩
    · rw [hpi j (lt_trans hj h)]
      exact hpk j hj
    · rw [hpi k h]
      exact hlk

/-! ## Lemmas on the object representation -/

theorem binary64.one_eq : (1 : binary64) = ⟨0, 0, 0, 0, 0, 0, 0xF0, 0x3F⟩ := rfl

theorem binary64.zero_eq : (0 : binary64) = ⟨0, 0, 0, 0, 0, 0, 0, 0⟩ := rfl

theorem binary64.bytes_append_inj {x y : binary64} {l m : List Nat}
    (h : x.bytes ++ l = y.bytes ++ m) : x = y ∧ l = m := by
  cases x
  cases y
  simp only [binary64.bytes, List.cons_append, List.nil_append, List.cons.injEq,
    Fin.val_inj] at h
  simp only [binary64.mk.injEq]
  tauto

theorem field_mode.value_injective {a b : field_mode} (h : a.value = b.value) : a = b := by
  cases a <;> cases b <;> simp [field_mode.value] at h <;> rfl

theorem binary64.bytes_length (x : binary64) : x.bytes.length = 8 := rfl

theorem object_bytes_list_length (T : frame_transform binary64) :
    (object_bytes_list T).length = 176 := by
  simp only [object_bytes_list, List.length_append, binary64.bytes_length, List.length_cons,
    List.length_nil]

theorem object_bytes_list_injective {S T : frame_transform binary64}
    (h : object_bytes_list S = object_bytes_list T) : S = T := by
  simp only [object_bytes_list, List.append_assoc] at h
  obtain ⟨e0, h⟩ := binary64.bytes_append_inj h
  obtain ⟨e1, h⟩ := binary64.bytes_append_inj h
  obtain ⟨e2, h⟩ := binary64.bytes_append_inj h
  obtain ⟨e3, h⟩ := binary64.bytes_append_inj h
  obtain ⟨e4, h⟩ := binary64.bytes_append_inj h
  obtain ⟨e5, h⟩ := binary64.bytes_append_inj h
  obtain ⟨e6, h⟩ := binary64.bytes_append_inj h
  obtain ⟨e7, h⟩ := binary64.bytes_append_inj h
  obtain ⟨e8, h⟩ := binary64.bytes_append_inj h
  obtain ⟨e9, h⟩ := binary64.bytes_append_inj h
  obtain ⟨e10, h⟩ := binary64.bytes_append_inj h
  obtain ⟨e11, h⟩ := binary64.bytes_append_inj h
  obtain ⟨e12, h⟩ := binary64.bytes_append_inj h
  obtain ⟨e13, h⟩ := binary64.bytes_append_inj h
  obtain ⟨e14, h⟩ := binary64.bytes_append_inj h
  obtain ⟨e15, h⟩ := binary64.bytes_append_inj h
  obtain ⟨e16, h⟩ := binary64.bytes_append_inj h
  obtain ⟨e17, h⟩ := binary64.bytes_append_inj h
  obtain ⟨e18, h⟩ := binary64.bytes_append_inj h
  obtain ⟨e19, h⟩ := binary64.bytes_append_inj h
  obtain ⟨e20, h⟩ := binary64.bytes_append_inj h
  simp only [List.cons_append, List.nil_append, List.cons.injEq, and_true, true_and] at h
  obtain ⟨hf, hk, hm⟩ := h
  apply frame_transform.ext_fields
  · exact e0
  · exact e1
  · exact e2
  · exact e3
  · exact e4
  · exact Prod.ext e5 e6
  · exact Prod.ext e7 e8
  · exact Prod.ext e9 e10
  · exact Prod.ext e11 e12
  · exact Prod.ext e13 e14
  · exact e15
  · exact e16
  · exact e17
  · exact e18
  · exact e19
  · exact e20
  · exact field_mode.value_injective hf
  · revert hk
    cases S.is_key <;> cases T.is_key <;> simp
  · revert hm
    cases S.is_mix <;> cases T.is_mix <;> simp

theorem object_bytes_injective {S T : frame_transform binary64}
    (h : ∀ i, i < sizeof_frame_transform → object_bytes S i = object_bytes T i) : S = T := by
  apply object_bytes_list_injective
  apply List.ext_getElem
  · rw [object_bytes_list_length, object_bytes_list_length]
  · intro i h1 h2
    have hi : i < sizeof_frame_transform := by
      rw [object_bytes_list_length] at h1
      exact h1
    have := h i hi
    simp only [object_bytes, List.getD_eq_getElem?_getD, List.getElem?_eq_getElem h1,
      List.getElem?_eq_getElem h2, Option.getD_some] at this
    exact this

/-! ## Lemmas on the comparison operators -/

theorem operator_eq_true_iff {K : Type} (repr : frame_transform K → Nat → Nat) (size : Nat)
    (T1 T2 : frame_transform K) :
    operator_eq repr size T1 T2 = true ↔ ∀ i, i < size → repr T1 i = repr T2 i := by
  rw [operator_eq, decide_eq_true_iff, memcmp_eq_zero_iff]

theorem operator_eq_self {K : Type} (repr : frame_transform K → Nat → Nat) (size : Nat)
    (T : frame_transform K) : operator_eq repr size T T = true := by
  rw [operator_eq_true_iff]
  intro i _
  rfl

theorem operator_eq_symm {K : Type} (repr : frame_transform K → Nat → Nat) (size : Nat)
    (T1 T2 : frame_transform K) :
    operator_eq repr size T1 T2 = operator_eq repr size T2 T1 := by
  rw [Bool.eq_iff_iff, operator_eq_true_iff, operator_eq_true_iff]
  exact ⟨fun h i hi => (h i hi).symm, fun h i hi => (h i hi).symm⟩

theorem operator_lt_true_iff {K : Type} (repr : frame_transform K → Nat → Nat) (size : Nat)
    (T1 T2 : frame_transform K) :
    operator_lt repr size T1 T2 = true ↔
      ∃ i, i < size ∧ (∀ j, j < i → repr T1 j = repr T2 j) ∧ repr T1 i < repr T2 i := by
  rw [operator_lt, decide_eq_true_iff, memcmp_neg_iff]

theorem operator_eq_object_bytes_iff (T1 T2 : frame_transform binary64) :
    operator_eq object_bytes sizeof_frame_transform T1 T2 = true ↔ T1 = T2 := by
  constructor
  · intro h
    exact object_bytes_injective ((operator_eq_true_iff _ _ _ _).mp h)
  · intro h
    rw [h]
    exact operator_eq_self _ _ _

/-! ## Angles that a double can hold -/

theorem cos_rat_ne_zero (q : ℚ) : Real.cos (q : ℝ) ≠ 0 := by
  intro h
  obtain ⟨k, hk⟩ := Real.cos_eq_zero_iff.mp h
  have hodd : (2 * (k : ℝ) + 1) ≠ 0 := by
    have h1 : (2 * k + 1 : ℤ) ≠ 0 := by omega
    exact_mod_cast h1
  apply irrational_pi
  refine ⟨2 * q / (2 * k + 1), ?_⟩
  push_cast
  rw [hk]
  field_simp

theorem abs_cos_le_abs_sub_pi_div_two (θ : ℝ) : |Real.cos θ| ≤ |θ - Real.pi / 2| := by
  rw [← Real.sin_pi_div_two_sub, abs_sub_comm θ]
  exact Real.abs_sin_le_abs

theorem abs_sin_sub_one_le (θ : ℝ) : |Real.sin θ - 1| ≤ (θ - Real.pi / 2) ^ 2 / 2 := by
  have h1 : Real.sin θ ≤ 1 := Real.sin_le_one θ
  have h2 : 1 - (Real.pi / 2 - θ) ^ 2 / 2 ≤ Real.cos (Real.pi / 2 - θ) :=
    Real.one_sub_sq_div_two_le_cos
  rw [Real.cos_pi_div_two_sub] at h2
  rw [abs_sub_comm, abs_of_nonneg (by linarith)]
  have h3 : (Real.pi / 2 - θ) ^ 2 = (θ - Real.pi / 2) ^ 2 := by ring
  linarith

theorem nearest_double_to_pi_div_two :
    |(7074237752028440 : ℝ) / 2 ^ 52 - Real.pi / 2| ≤ 62 / 10 ^ 18 := by
  have h1 := Real.pi_gt_d20
  have h2 := Real.pi_lt_d20
  rw [abs_le]
  constructor <;> norm_num at h1 h2 ⊢ <;> linarith

/-! ## Evaluation over the rationals

The definitions run on concrete rational inputs; here with the unrotated
parent of the spec's scenario, where `std::cos` returns 1 and `std::sin`
returns 0. -/

theorem mul_eval_rat :
    (frame_transform.mul (fun _ => (1 : ℚ)) (fun _ => (0 : ℚ)) (some 1)
      { (frame_transform.ctor : frame_transform ℚ) with fill_scale := (2, 2) }
      { (frame_transform.ctor : frame_transform ℚ) with fill_translation := (3, 4) }
      ).1.fill_translation = (6, 8) := by
  norm_num [frame_transform.mul, frame_transform.mul_assign, get_current_aspect_ratio,
    get_thread_local_aspect_ratio, frame_transform.ctor]

/-! ## Field projections of the constructor and of the composition -/

@[simp]
theorem frame_transform.ctor_volume {K : Type} [LinearOrderedField K] :
    (frame_transform.ctor : frame_transform K).volume = 1 := rfl

@[simp]
theorem frame_transform.ctor_opacity {K : Type} [LinearOrderedField K] :
    (frame_transform.ctor : frame_transform K).opacity = 1 := rfl

@[simp]
theorem frame_transform.ctor_brightness {K : Type} [LinearOrderedField K] :
    (frame_transform.ctor : frame_transform K).brightness = 1 := rfl

@[simp]
theorem frame_transform.ctor_contrast {K : Type} [LinearOrderedField K] :
    (frame_transform.ctor : frame_transform K).contrast = 1 := rfl

@[simp]
theorem frame_transform.ctor_saturation {K : Type} [LinearOrderedField K] :
    (frame_transform.ctor : frame_transform K).saturation = 1 := rfl

@[simp]
theorem frame_transform.ctor_anchor {K : Type} [LinearOrderedField K] :
    (frame_transform.ctor : frame_transform K).anchor = (0, 0) := rfl

@[simp]
theorem frame_transform.ctor_fill_translation {K : Type} [LinearOrderedField K] :
    (frame_transform.ctor : frame_transform K).fill_translation = (0, 0) := rfl

@[simp]
theorem frame_transform.ctor_fill_scale {K : Type} [LinearOrderedField K] :
    (frame_transform.ctor : frame_transform K).fill_scale = (1, 1) := rfl

@[simp]
theorem frame_transform.ctor_clip_translation {K : Type} [LinearOrderedField K] :
    (frame_transform.ctor : frame_transform K).clip_translation = (0, 0) := rfl

@[simp]
theorem frame_transform.ctor_clip_scale {K : Type} [LinearOrderedField K] :
    (frame_transform.ctor : frame_transform K).clip_scale = (1, 1) := rfl

@[simp]
theorem frame_transform.ctor_angle {K : Type} [LinearOrderedField K] :
    (frame_transform.ctor : frame_transform K).angle = 0 := rfl

@[simp]
theorem frame_transform.ctor_min_input {K : Type} [LinearOrderedField K] :
    (frame_transform.ctor : frame_transform K).levels.min_input = 0 := rfl

@[simp]
theorem frame_transform.ctor_max_input {K : Type} [LinearOrderedField K] :
    (frame_transform.ctor : frame_transform K).levels.max_input = 1 := rfl

@[simp]
theorem frame_transform.ctor_gamma {K : Type} [LinearOrderedField K] :
    (frame_transform.ctor : frame_transform K).levels.gamma = 1 := rfl

@[simp]
theorem frame_transform.ctor_min_output {K : Type} [LinearOrderedField K] :
    (frame_transform.ctor : frame_transform K).levels.min_output = 0 := rfl

@[simp]
theorem frame_transform.ctor_max_output {K : Type} [LinearOrderedField K] :
    (frame_transform.ctor : frame_transform K).levels.max_output = 1 := rfl

@[simp]
theorem frame_transform.ctor_field_mode {K : Type} [LinearOrderedField K] :
    (frame_transform.ctor : frame_transform K).field_mode = field_mode.progressive := rfl

@[simp]
theorem frame_transform.ctor_is_key {K : Type} [LinearOrderedField K] :
    (frame_transform.ctor : frame_transform K).is_key = false := rfl

@[simp]
theorem frame_transform.ctor_is_mix {K : Type} [LinearOrderedField K] :
    (frame_transform.ctor : frame_transform K).is_mix = false := rfl

@[simp]
theorem frame_transform.mul_volume {K : Type} [LinearOrderedField K] (cos sin : K → K)
    (slot : Option K) (P C : frame_transform K) :
    (frame_transform.mul cos sin slot P C).1.volume =
      P.volume * C.volume := rfl

@[simp]
theorem frame_transform.mul_opacity {K : Type} [LinearOrderedField K] (cos sin : K → K)
    (slot : Option K) (P C : frame_transform K) :
    (frame_transform.mul cos sin slot P C).1.opacity =
      P.opacity * C.opacity := rfl

@[simp]
theorem frame_transform.mul_brightness {K : Type} [LinearOrderedField K] (cos sin : K → K)
    (slot : Option K) (P C : frame_transform K) :
    (frame_transform.mul cos sin slot P C).1.brightness =
      P.brightness * C.brightness := rfl

@[simp]
theorem frame_transform.mul_contrast {K : Type} [LinearOrderedField K] (cos sin : K → K)
    (slot : Option K) (P C : frame_transform K) :
    (frame_transform.mul cos sin slot P C).1.contrast =
      P.contrast * C.contrast := rfl

@[simp]
theorem frame_transform.mul_saturation {K : Type} [LinearOrderedField K] (cos sin : K → K)
    (slot : Option K) (P C : frame_transform K) :
    (frame_transform.mul cos sin slot P C).1.saturation =
      P.saturation * C.saturation := rfl

@[simp]
theorem frame_transform.mul_anchor {K : Type} [LinearOrderedField K] (cos sin : K → K)
    (slot : Option K) (P C : frame_transform K) :
    (frame_transform.mul cos sin slot P C).1.anchor =
      (P.anchor.1 + C.anchor.1 * P.fill_scale.1, P.anchor.2 + C.anchor.2 * P.fill_scale.2) := rfl

@[simp]
theorem frame_transform.mul_fill_translation {K : Type} [LinearOrderedField K] (cos sin : K → K)
    (slot : Option K) (P C : frame_transform K) :
    (frame_transform.mul cos sin slot P C).1.fill_translation =
      (P.fill_translation.1 +
          (C.fill_translation.1 * cos P.angle -
            C.fill_translation.2 / (get_current_aspect_ratio slot).1 * sin P.angle) * P.fill_scale.1,
        P.fill_translation.2 +
          (C.fill_translation.1 * sin P.angle +
            C.fill_translation.2 / (get_current_aspect_ratio slot).1 * cos P.angle) *
              (get_current_aspect_ratio slot).1 * P.fill_scale.2) := rfl

@[simp]
theorem frame_transform.mul_fill_scale {K : Type} [LinearOrderedField K] (cos sin : K → K)
    (slot : Option K) (P C : frame_transform K) :
    (frame_transform.mul cos sin slot P C).1.fill_scale =
      (P.fill_scale.1 * C.fill_scale.1, P.fill_scale.2 * C.fill_scale.2) := rfl

@[simp]
theorem frame_transform.mul_clip_translation {K : Type} [LinearOrderedField K] (cos sin : K → K)
    (slot : Option K) (P C : frame_transform K) :
    (frame_transform.mul cos sin slot P C).1.clip_translation =
      (P.clip_translation.1 + C.clip_translation.1 * P.clip_scale.1,
        P.clip_translation.2 + C.clip_translation.2 * P.clip_scale.2) := rfl

@[simp]
theorem frame_transform.mul_clip_scale {K : Type} [LinearOrderedField K] (cos sin : K → K)
    (slot : Option K) (P C : frame_transform K) :
    (frame_transform.mul cos sin slot P C).1.clip_scale =
      (P.clip_scale.1 * C.clip_scale.1, P.clip_scale.2 * C.clip_scale.2) := rfl

@[simp]
theorem frame_transform.mul_angle {K : Type} [LinearOrderedField K] (cos sin : K → K)
    (slot : Option K) (P C : frame_transform K) :
    (frame_transform.mul cos sin slot P C).1.angle =
      P.angle + C.angle := rfl

@[simp]
theorem frame_transform.mul_min_input {K : Type} [LinearOrderedField K] (cos sin : K → K)
    (slot : Option K) (P C : frame_transform K) :
    (frame_transform.mul cos sin slot P C).1.levels.min_input =
      max P.levels.min_input C.levels.min_input := rfl

@[simp]
theorem frame_transform.mul_max_input {K : Type} [LinearOrderedField K] (cos sin : K → K)
    (slot : Option K) (P C : frame_transform K) :
    (frame_transform.mul cos sin slot P C).1.levels.max_input =
      min P.levels.max_input C.levels.max_input := rfl

@[simp]
theorem frame_transform.mul_gamma {K : Type} [LinearOrderedField K] (cos sin : K → K)
    (slot : Option K) (P C : frame_transform K) :
    (frame_transform.mul cos sin slot P C).1.levels.gamma =
      P.levels.gamma * C.levels.gamma := rfl

@[simp]
theorem frame_transform.mul_min_output {K : Type} [LinearOrderedField K] (cos sin : K → K)
    (slot : Option K) (P C : frame_transform K) :
    (frame_transform.mul cos sin slot P C).1.levels.min_output =
      max P.levels.min_output C.levels.min_output := rfl

@[simp]
theorem frame_transform.mul_max_output {K : Type} [LinearOrderedField K] (cos sin : K → K)
    (slot : Option K) (P C : frame_transform K) :
    (frame_transform.mul cos sin slot P C).1.levels.max_output =
      min P.levels.max_output C.levels.max_output := rfl

@[simp]
theorem frame_transform.mul_field_mode {K : Type} [LinearOrderedField K] (cos sin : K → K)
    (slot : Option K) (P C : frame_transform K) :
    (frame_transform.mul cos sin slot P C).1.field_mode =
      field_mode.and P.field_mode C.field_mode := rfl

@[simp]
theorem frame_transform.mul_is_key {K : Type} [LinearOrderedField K] (cos sin : K → K)
    (slot : Option K) (P C : frame_transform K) :
    (frame_transform.mul cos sin slot P C).1.is_key =
      (P.is_key || C.is_key) := rfl

@[simp]
theorem frame_transform.mul_is_mix {K : Type} [LinearOrderedField K] (cos sin : K → K)
    (slot : Option K) (P C : frame_transform K) :
    (frame_transform.mul cos sin slot P C).1.is_mix =
      (P.is_mix || C.is_mix) := rfl

/-! ## Associativity of the composition over the reals -/

theorem frame_transform.mul_assoc_except_fill_translation (slot : Option ℝ)
    (A B C : frame_transform ℝ) :
    (frame_transform.mul Real.cos Real.sin (frame_transform.mul Real.cos Real.sin slot A B).2
        (frame_transform.mul Real.cos Real.sin slot A B).1 C).1 =
      { (frame_transform.mul Real.cos Real.sin (frame_transform.mul Real.cos Real.sin slot B C).2
        A (frame_transform.mul Real.cos Real.sin slot B C).1).1 with
        fill_translation :=
          (frame_transform.mul Real.cos Real.sin (frame_transform.mul Real.cos Real.sin slot A B).2
        (frame_transform.mul Real.cos Real.sin slot A B).1 C).1.fill_translation } := by
  apply frame_transform.ext_fields <;>
    simp [max_assoc, min_assoc, field_mode.and_assoc, Bool.or_assoc] <;>
    first
      | ring1
      | (constructor <;> ring1)

theorem frame_transform.mul_assoc_fill_translation (slot : Option ℝ)
    (A B C : frame_transform ℝ) (ha : (get_current_aspect_ratio slot).1 ≠ 0)
    (h : A.angle = 0 ∨ B.fill_scale.1 = B.fill_scale.2) :
    (frame_transform.mul Real.cos Real.sin (frame_transform.mul Real.cos Real.sin slot A B).2
        (frame_transform.mul Real.cos Real.sin slot A B).1 C).1.fill_translation =
      (frame_transform.mul Real.cos Real.sin (frame_transform.mul Real.cos Real.sin slot B C).2
        A (frame_transform.mul Real.cos Real.sin slot B C).1).1.fill_translation := by
  simp only [frame_transform.mul_fill_translation, frame_transform.mul_snd,
    frame_transform.mul_fill_scale, frame_transform.mul_angle, get_current_aspect_ratio_some]
  rcases h with h | h
  · simp only [h, Real.cos_zero, Real.sin_zero, zero_add, Prod.mk.injEq]
    constructor
    · ring
    · field_simp
      ring
  · simp only [h, Real.cos_add, Real.sin_add, Prod.mk.injEq]
    constructor
    · field_simp
      ring
    · field_simp
      ring

/-! ## Identity -/

/-- C1, as the spec states it, fails: a transform whose `min_input` is below
the default 0 is not preserved by composition with the default transform,
because `operator*=` takes the maximum of the two `min_input` values. -/
theorem identity_fails_outside_default_levels :
    (frame_transform.mul Real.cos Real.sin (some 1)
        { (frame_transform.ctor : frame_transform ℝ) with
          levels := { (levels.ctor : levels ℝ) with min_input := -1 } }
        frame_transform.ctor).1.levels.min_input = 0 ∧
    (frame_transform.mul Real.cos Real.sin (some 1)
        { (frame_transform.ctor : frame_transform ℝ) with
          levels := { (levels.ctor : levels ℝ) with min_input := -1 } }
        frame_transform.ctor).1 ≠
      { (frame_transform.ctor : frame_transform ℝ) with
        levels := { (levels.ctor : levels ℝ) with min_input := -1 } } := by
  have h : (frame_transform.mul Real.cos Real.sin (some 1)
        { (frame_transform.ctor : frame_transform ℝ) with
          levels := { (levels.ctor : levels ℝ) with min_input := -1 } }
        frame_transform.ctor).1.levels.min_input = 0 := by
    simp
  refine ⟨h, fun hEq => ?_⟩
  rw [hEq] at h
  norm_num at h

/-- C1, amended: with the current aspect ratio equal to 1, composing a
transform `T` with the default transform on either side leaves every field of
`T` unchanged except the four level bounds, which are narrowed to the default
ranges; when the level bounds of `T` lie inside the default ranges
(`0 ≤ min_input`, `max_input ≤ 1`, `0 ≤ min_output`, `max_output ≤ 1`), both
`T * I` and `I * T` equal `T` in every field. -/
theorem mul_ctor_identity (slot : Option ℝ) (T : frame_transform ℝ)
    (hs : (get_current_aspect_ratio slot).1 = 1) :
    (frame_transform.mul Real.cos Real.sin slot T frame_transform.ctor).1 =
        { T with levels := { T.levels with
            min_input := max T.levels.min_input 0
            max_input := min T.levels.max_input 1
            min_output := max T.levels.min_output 0
            max_output := min T.levels.max_output 1 } } ∧
    (frame_transform.mul Real.cos Real.sin slot frame_transform.ctor T).1 =
        { T with levels := { T.levels with
            min_input := max 0 T.levels.min_input
            max_input := min 1 T.levels.max_input
            min_output := max 0 T.levels.min_output
            max_output := min 1 T.levels.max_output } } ∧
    (0 ≤ T.levels.min_input → T.levels.max_input ≤ 1 →
      0 ≤ T.levels.min_output → T.levels.max_output ≤ 1 →
      (frame_transform.mul Real.cos Real.sin slot T frame_transform.ctor).1 = T ∧
      (frame_transform.mul Real.cos Real.sin slot frame_transform.ctor T).1 = T) := by
  have hl : (frame_transform.mul Real.cos Real.sin slot T frame_transform.ctor).1 =
        { T with levels := { T.levels with
            min_input := max T.levels.min_input 0
            max_input := min T.levels.max_input 1
            min_output := max T.levels.min_output 0
            max_output := min T.levels.max_output 1 } } := by
    apply frame_transform.ext_fields <;>
      simp [field_mode.and_progressive, hs]
  have hr : (frame_transform.mul Real.cos Real.sin slot frame_transform.ctor T).1 =
        { T with levels := { T.levels with
            min_input := max 0 T.levels.min_input
            max_input := min 1 T.levels.max_input
            min_output := max 0 T.levels.min_output
            max_output := min 1 T.levels.max_output } } := by
    apply frame_transform.ext_fields <;>
      simp [field_mode.progressive_and, hs]
  refine ⟨hl, hr, fun h1 h2 h3 h4 => ⟨?_, ?_⟩⟩
  · rw [hl]
    apply frame_transform.ext_fields <;> simp [h1, h2, h3, h4]
  · rw [hr]
    apply frame_transform.ext_fields <;> simp [h1, h2, h3, h4]

/-- Witness of `mul_ctor_identity`: a rotated, scaled and translated transform
with level bounds inside the default ranges, on a slot holding 1. -/
theorem mul_ctor_identity_witness :
    (get_current_aspect_ratio (some (1 : ℝ))).1 = 1 ∧
    (frame_transform.mul Real.cos Real.sin (some 1)
        { (frame_transform.ctor : frame_transform ℝ) with
          volume := 2, fill_translation := (3, 4), fill_scale := (2, 5), angle := 1 }
        frame_transform.ctor).1 =
      { (frame_transform.ctor : frame_transform ℝ) with
        volume := 2, fill_translation := (3, 4), fill_scale := (2, 5), angle := 1 } ∧
    (frame_transform.mul Real.cos Real.sin (some 1) frame_transform.ctor
        { (frame_transform.ctor : frame_transform ℝ) with
          volume := 2, fill_translation := (3, 4), fill_scale := (2, 5), angle := 1 }).1 =
      { (frame_transform.ctor : frame_transform ℝ) with
        volume := 2, fill_translation := (3, 4), fill_scale := (2, 5), angle := 1 } :=
  ⟨get_current_aspect_ratio_some_fst 1,
    (mul_ctor_identity (some 1) _ (get_current_aspect_ratio_some_fst 1)).2.2
      (le_refl (0 : ℝ)) (le_refl (1 : ℝ)) (le_refl (0 : ℝ)) (le_refl (1 : ℝ))⟩

/-! ## Associativity -/

/-- C3: for every parent `P`, child `C` and current aspect ratio `a` (the value
`get_current_aspect_ratio` reads from the slot), with `θ = P.angle`,
`x = C.fill_translation.x` and `y = C.fill_translation.y / a`, the composed
fill translation is `P.fill_translation.x + (x cos θ - y sin θ) * P.fill_scale.x`
and `P.fill_translation.y + ((x sin θ + y cos θ) * a) * P.fill_scale.y`, with
the angle and fill scale `P` has before the composition. -/
theorem mul_fill_translation_formula (slot : Option ℝ) (P C : frame_transform ℝ) :
    (frame_transform.mul Real.cos Real.sin slot P C).1.fill_translation.1 =
      P.fill_translation.1 +
        (C.fill_translation.1 * Real.cos P.angle -
          C.fill_translation.2 / (get_current_aspect_ratio slot).1 * Real.sin P.angle) *
            P.fill_scale.1 ∧
    (frame_transform.mul Real.cos Real.sin slot P C).1.fill_translation.2 =
      P.fill_translation.2 +
        ((C.fill_translation.1 * Real.sin P.angle +
          C.fill_translation.2 / (get_current_aspect_ratio slot).1 * Real.cos P.angle) *
            (get_current_aspect_ratio slot).1) * P.fill_scale.2 :=
  ⟨rfl, rfl⟩

/-- C4, as the spec states it, fails on the program: a double cannot hold
`π / 2`.  The double nearest to it is `7074237752028440 / 2^52` (the word
`0x3FF921FB54442D18`, within `6.2e-17` of `π / 2`), and with that angle in the
parent, aspect ratio 2 and a child translated by `(1, 0)` the `x` component of
the composed fill translation is the cosine of the angle, which is not zero,
so the result is not `(0, 2)`. -/
theorem quarter_turn_not_exact :
    binary64.value ⟨0x18, 0x2D, 0x44, 0x54, 0xFB, 0x21, 0xF9, 0x3F⟩ =
      some (7074237752028440 / 2 ^ 52) ∧
    |(7074237752028440 : ℝ) / 2 ^ 52 - Real.pi / 2| ≤ 62 / 10 ^ 18 ∧
    (frame_transform.mul Real.cos Real.sin (some 2)
        { (frame_transform.ctor : frame_transform ℝ) with angle := 7074237752028440 / 2 ^ 52 }
        { (frame_transform.ctor : frame_transform ℝ) with fill_translation := (1, 0) }).1.fill_translation.1 ≠ 0 ∧
    (frame_transform.mul Real.cos Real.sin (some 2)
        { (frame_transform.ctor : frame_transform ℝ) with angle := 7074237752028440 / 2 ^ 52 }
        { (frame_transform.ctor : frame_transform ℝ) with fill_translation := (1, 0) }).1.fill_translation ≠ (0, 2) := by
  have hx : (frame_transform.mul Real.cos Real.sin (some 2)
        { (frame_transform.ctor : frame_transform ℝ) with angle := 7074237752028440 / 2 ^ 52 }
        { (frame_transform.ctor : frame_transform ℝ) with fill_translation := (1, 0) }).1.fill_translation.1 ≠ 0 := by
    have hq : ((7074237752028440 : ℝ) / 2 ^ 52) = ((7074237752028440 / 2 ^ 52 : ℚ) : ℝ) := by
      push_cast
      rfl
    simp only [frame_transform.mul_fill_translation, get_current_aspect_ratio_some,
      frame_transform.ctor_fill_translation, frame_transform.ctor_fill_scale, zero_div,
      zero_mul, sub_zero, one_mul, mul_one, zero_add]
    rw [hq]
    exact cos_rat_ne_zero _
  refine ⟨?_, nearest_double_to_pi_div_two, hx, fun h => hx ?_⟩
  · have h1 : binary64.exponent ⟨0x18, 0x2D, 0x44, 0x54, 0xFB, 0x21, 0xF9, 0x3F⟩ = 1023 := by
      decide
    have h2 : binary64.fraction ⟨0x18, 0x2D, 0x44, 0x54, 0xFB, 0x21, 0xF9, 0x3F⟩ =
        2570638124657944 := by decide
    have h3 : binary64.sign ⟨0x18, 0x2D, 0x44, 0x54, 0xFB, 0x21, 0xF9, 0x3F⟩ = false := by
      decide
    simp only [binary64.value, h1, h2, h3]
    norm_num
  · rw [h]

/-- C4, amended: over exact real arithmetic, for every non-zero aspect ratio
`a` and every angle `θ`, a parent that is default except for `angle = θ`,
composed with a child whose fill translation is `(1, 0)`, yields the fill
translation `(cos θ, a * sin θ)`; its `x` is within `|θ - π / 2|` of 0 and its
`y` within `|a| * (θ - π / 2)^2 / 2` of `a`, so that an angle within a
tolerance of the quarter turn gives `(0, a)` within that tolerance; it is
`(0, a)` at the real number `π / 2`, and its `x` is non-zero at every rational
angle, hence at every angle a double holds.  The aspect ratio is taken
non-zero as in the source the child's `y` is divided by it; it need not differ
from 1. -/
theorem mul_quarter_turn (a θ : ℝ) (C : frame_transform ℝ) (_ha : a ≠ 0)
    (hC : C.fill_translation = (1, 0)) :
    (frame_transform.mul Real.cos Real.sin (some a)
        { (frame_transform.ctor : frame_transform ℝ) with angle := θ } C).1.fill_translation = (Real.cos θ, Real.sin θ * a) ∧
    |(frame_transform.mul Real.cos Real.sin (some a)
        { (frame_transform.ctor : frame_transform ℝ) with angle := θ } C).1.fill_translation.1 - 0| ≤ |θ - Real.pi / 2| ∧
    |(frame_transform.mul Real.cos Real.sin (some a)
        { (frame_transform.ctor : frame_transform ℝ) with angle := θ } C).1.fill_translation.2 - a| ≤ |a| * ((θ - Real.pi / 2) ^ 2 / 2) ∧
    (θ = Real.pi / 2 →
      (frame_transform.mul Real.cos Real.sin (some a)
        { (frame_transform.ctor : frame_transform ℝ) with angle := θ } C).1.fill_translation = (0, a)) ∧
    (∀ q : ℚ, θ = (q : ℝ) →
      (frame_transform.mul Real.cos Real.sin (some a)
        { (frame_transform.ctor : frame_transform ℝ) with angle := θ } C).1.fill_translation.1 ≠ 0) := by
  have h : (frame_transform.mul Real.cos Real.sin (some a)
        { (frame_transform.ctor : frame_transform ℝ) with angle := θ } C).1.fill_translation = (Real.cos θ, Real.sin θ * a) := by
    simp [hC, get_current_aspect_ratio_some]
  refine ⟨h, ?_, ?_, fun hθ => ?_, fun q hq => ?_⟩
  · rw [h, sub_zero]
    exact abs_cos_le_abs_sub_pi_div_two θ
  · rw [h]
    have h1 : Real.sin θ * a - a = a * (Real.sin θ - 1) := by ring
    rw [h1, abs_mul]
    exact mul_le_mul_of_nonneg_left (abs_sin_sub_one_le θ) (abs_nonneg a)
  · rw [h, hθ, Real.cos_pi_div_two, Real.sin_pi_div_two, one_mul]
  · rw [h, hq]
    exact cos_rat_ne_zero q

/-- Witness of `mul_quarter_turn`: aspect ratio 2, the double nearest to
`π / 2` as the angle, and a child that is default except for the fill
translation `(1, 0)`: the result is within `6.2e-17` of 0 in `x` and within
`2 * (6.2e-17)^2 / 2` of 2 in `y`. -/
theorem mul_quarter_turn_witness :
    (2 : ℝ) ≠ 0 ∧
    ({ (frame_transform.ctor : frame_transform ℝ) with
        fill_translation := (1, 0) }).fill_translation = (1, 0) ∧
    |(frame_transform.mul Real.cos Real.sin (some 2)
        { (frame_transform.ctor : frame_transform ℝ) with angle := 7074237752028440 / 2 ^ 52 }
        { (frame_transform.ctor : frame_transform ℝ) with fill_translation := (1, 0) }).1.fill_translation.1 - 0| ≤ 62 / 10 ^ 18 ∧
    |(frame_transform.mul Real.cos Real.sin (some 2)
        { (frame_transform.ctor : frame_transform ℝ) with angle := 7074237752028440 / 2 ^ 52 }
        { (frame_transform.ctor : frame_transform ℝ) with fill_translation := (1, 0) }).1.fill_translation.2 - 2| ≤ |(2 : ℝ)| * ((62 / 10 ^ 18) ^ 2 / 2) := by
  have h := mul_quarter_turn 2 (7074237752028440 / 2 ^ 52)
    { (frame_transform.ctor : frame_transform ℝ) with fill_translation := (1, 0) }
    two_ne_zero rfl
  have hθ := nearest_double_to_pi_div_two
  refine ⟨two_ne_zero, rfl, le_trans h.2.1 hθ, le_trans h.2.2.1 ?_⟩
  have hsq : ((7074237752028440 : ℝ) / 2 ^ 52 - Real.pi / 2) ^ 2 ≤ (62 / 10 ^ 18) ^ 2 := by
    rw [← sq_abs]
    exact pow_le_pow_left₀ (abs_nonneg _) hθ 2
  exact mul_le_mul_of_nonneg_left (by linarith) (abs_nonneg _)

/-- C5: for every parent `P` with `angle = 0` and every child `C`, with the
current aspect ratio equal to 1, the composed fill translation is the
translation of `P` plus the translation of `C` scaled by the fill scale of
`P`, on both axes. -/
theorem mul_fill_translation_unrotated (slot : Option ℝ) (P C : frame_transform ℝ)
    (hs : (get_current_aspect_ratio slot).1 = 1) (hP : P.angle = 0) :
    (frame_transform.mul Real.cos Real.sin slot P C).1.fill_translation =
      (P.fill_translation.1 + C.fill_translation.1 * P.fill_scale.1,
       P.fill_translation.2 + C.fill_translation.2 * P.fill_scale.2) := by
  simp [hs, hP]

/-- Witness of `mul_fill_translation_unrotated`, the scenario of the spec: `P`
with fill scale `(2, 2)` and `C` with fill translation `(3, 4)` give
`(6, 8)`. -/
theorem mul_fill_translation_unrotated_witness :
    (get_current_aspect_ratio (some (1 : ℝ))).1 = 1 ∧
    ({ (frame_transform.ctor : frame_transform ℝ) with fill_scale := (2, 2) }).angle = 0 ∧
    (frame_transform.mul Real.cos Real.sin (some 1)
      { (frame_transform.ctor : frame_transform ℝ) with fill_scale := (2, 2) }
      { (frame_transform.ctor : frame_transform ℝ) with fill_translation := (3, 4) }
      ).1.fill_translation = (6, 8) := by
  refine ⟨rfl, rfl, ?_⟩
  rw [mul_fill_translation_unrotated (some 1)
    { (frame_transform.ctor : frame_transform ℝ) with fill_scale := (2, 2) }
    { (frame_transform.ctor : frame_transform ℝ) with fill_translation := (3, 4) } rfl rfl]
  norm_num

/-! ## Levels, field mode and flags -/

/-- C6: composition only narrows the level ranges: the lower bounds of the
product are the maxima and the upper bounds the minima of the operands'
bounds, so the input range and the output range of `P * C` are subsets of the
corresponding ranges of `P` and of `C`. -/
theorem mul_levels_narrow (slot : Option ℝ) (P C : frame_transform ℝ) :
    ((frame_transform.mul Real.cos Real.sin slot P C).1.levels.min_input =
        max P.levels.min_input C.levels.min_input ∧
      (frame_transform.mul Real.cos Real.sin slot P C).1.levels.max_input =
        min P.levels.max_input C.levels.max_input ∧
      (frame_transform.mul Real.cos Real.sin slot P C).1.levels.min_output =
        max P.levels.min_output C.levels.min_output ∧
      (frame_transform.mul Real.cos Real.sin slot P C).1.levels.max_output =
        min P.levels.max_output C.levels.max_output) ∧
    (Set.Icc (frame_transform.mul Real.cos Real.sin slot P C).1.levels.min_input
        (frame_transform.mul Real.cos Real.sin slot P C).1.levels.max_input ⊆
      Set.Icc P.levels.min_input P.levels.max_input ∧
     Set.Icc (frame_transform.mul Real.cos Real.sin slot P C).1.levels.min_input
        (frame_transform.mul Real.cos Real.sin slot P C).1.levels.max_input ⊆
      Set.Icc C.levels.min_input C.levels.max_input) ∧
    (Set.Icc (frame_transform.mul Real.cos Real.sin slot P C).1.levels.min_output
        (frame_transform.mul Real.cos Real.sin slot P C).1.levels.max_output ⊆
      Set.Icc P.levels.min_output P.levels.max_output ∧
     Set.Icc (frame_transform.mul Real.cos Real.sin slot P C).1.levels.min_output
        (frame_transform.mul Real.cos Real.sin slot P C).1.levels.max_output ⊆
      Set.Icc C.levels.min_output C.levels.max_output) := by
  refine ⟨⟨rfl, rfl, rfl, rfl⟩, ⟨?_, ?_⟩, ⟨?_, ?_⟩⟩
  · exact Set.Icc_subset_Icc (le_max_left _ _) (min_le_left _ _)
  · exact Set.Icc_subset_Icc (le_max_right _ _) (min_le_right _ _)
  · exact Set.Icc_subset_Icc (le_max_left _ _) (min_le_left _ _)
  · exact Set.Icc_subset_Icc (le_max_right _ _) (min_le_right _ _)

/-- C7: the field mode of `P * C` is the bitwise AND of the field modes of `P`
and `C`, so every mode bit set in the result is set in both operands. -/
theorem mul_field_mode_and (slot : Option ℝ) (P C : frame_transform ℝ) :
    (frame_transform.mul Real.cos Real.sin slot P C).1.field_mode =
        field_mode.and P.field_mode C.field_mode ∧
    (frame_transform.mul Real.cos Real.sin slot P C).1.field_mode.value =
        P.field_mode.value &&& C.field_mode.value ∧
    ∀ i : Nat,
      (frame_transform.mul Real.cos Real.sin slot P C).1.field_mode.value.testBit i = true →
        P.field_mode.value.testBit i = true ∧ C.field_mode.value.testBit i = true := by
  have hv : (frame_transform.mul Real.cos Real.sin slot P C).1.field_mode.value =
      P.field_mode.value &&& C.field_mode.value := by
    rw [frame_transform.mul_field_mode]
    cases P.field_mode <;> cases C.field_mode <;> rfl
  refine ⟨rfl, hv, fun i hi => ?_⟩
  rw [hv, Nat.testBit_and, Bool.and_eq_true] at hi
  exact hi

theorem compose_chain_nil {K : Type} [LinearOrderedField K] (cos sin : K → K)
    (slot : Option K) (root : frame_transform K) :
    compose_chain cos sin slot root [] = (root, slot) := rfl

theorem compose_chain_cons {K : Type} [LinearOrderedField K] (cos sin : K → K)
    (slot : Option K) (root t : frame_transform K) (ts : List (frame_transform K)) :
    compose_chain cos sin slot root (t :: ts) =
      compose_chain cos sin (frame_transform.mul cos sin slot root t).2
        (frame_transform.mul cos sin slot root t).1 ts := rfl

/-- C8: the flags of `P * C` are the disjunctions of the operands' flags; and
along any chain of compositions `root * t1 * t2 * ...` a flag is set in the
final result exactly when it is set in the root or in some member of the
chain, so a flag set at any level stays set. -/
theorem mul_flags_or (slot : Option ℝ) (P C : frame_transform ℝ) :
    (frame_transform.mul Real.cos Real.sin slot P C).1.is_key = (P.is_key || C.is_key) ∧
    (frame_transform.mul Real.cos Real.sin slot P C).1.is_mix = (P.is_mix || C.is_mix) ∧
    ∀ (root : frame_transform ℝ) (chain : List (frame_transform ℝ)),
      (compose_chain Real.cos Real.sin slot root chain).1.is_key =
          (root.is_key || chain.any (fun t => t.is_key)) ∧
      (compose_chain Real.cos Real.sin slot root chain).1.is_mix =
          (root.is_mix || chain.any (fun t => t.is_mix)) := by
  refine ⟨rfl, rfl, fun root chain => ?_⟩
  induction chain generalizing root slot with
  | nil => simp [compose_chain_nil]
  | cons t ts ih =>
    rw [compose_chain_cons]
    obtain ⟨h1, h2⟩ := ih (frame_transform.mul Real.cos Real.sin slot root t).2
      (frame_transform.mul Real.cos Real.sin slot root t).1
    rw [h1, h2]
    simp [Bool.or_assoc]

/-! ## The remaining fields of the composition -/

/-- C9: the fields of `P * C` other than the fill translation follow the
per-field rules with the values `P` has before the composition: products for
the scalars, gamma and the scales, the sum for the angle, and parent plus
scaled child for the anchor and the clip translation.  The rules hold for
every slot and for arbitrary functions in place of `std::cos` and `std::sin`,
so none of these fields depends on the aspect ratio or on the rotation. -/
theorem mul_plain_fields (cos sin : ℝ → ℝ) (slot : Option ℝ) (P C : frame_transform ℝ) :
    (frame_transform.mul cos sin slot P C).1.volume = P.volume * C.volume ∧
    (frame_transform.mul cos sin slot P C).1.opacity = P.opacity * C.opacity ∧
    (frame_transform.mul cos sin slot P C).1.brightness = P.brightness * C.brightness ∧
    (frame_transform.mul cos sin slot P C).1.contrast = P.contrast * C.contrast ∧
    (frame_transform.mul cos sin slot P C).1.saturation = P.saturation * C.saturation ∧
    (frame_transform.mul cos sin slot P C).1.levels.gamma = P.levels.gamma * C.levels.gamma ∧
    (frame_transform.mul cos sin slot P C).1.fill_scale.1 = P.fill_scale.1 * C.fill_scale.1 ∧
    (frame_transform.mul cos sin slot P C).1.fill_scale.2 = P.fill_scale.2 * C.fill_scale.2 ∧
    (frame_transform.mul cos sin slot P C).1.clip_scale.1 = P.clip_scale.1 * C.clip_scale.1 ∧
    (frame_transform.mul cos sin slot P C).1.clip_scale.2 = P.clip_scale.2 * C.clip_scale.2 ∧
    (frame_transform.mul cos sin slot P C).1.angle = P.angle + C.angle ∧
    (frame_transform.mul cos sin slot P C).1.anchor.1 =
      P.anchor.1 + C.anchor.1 * P.fill_scale.1 ∧
    (frame_transform.mul cos sin slot P C).1.anchor.2 =
      P.anchor.2 + C.anchor.2 * P.fill_scale.2 ∧
    (frame_transform.mul cos sin slot P C).1.clip_translation.1 =
      P.clip_translation.1 + C.clip_translation.1 * P.clip_scale.1 ∧
    (frame_transform.mul cos sin slot P C).1.clip_translation.2 =
      P.clip_translation.2 + C.clip_translation.2 * P.clip_scale.2 :=
  ⟨rfl, rfl, rfl, rfl, rfl, rfl, rfl, rfl, rfl, rfl, rfl, rfl, rfl, rfl, rfl⟩

/-! ## Tween -/

/-- C10: every continuous field `f` of `tween time source dest duration curve`
(volume, brightness, contrast, saturation, opacity, both components of anchor,
fill_translation, fill_scale, clip_translation and clip_scale, angle, and the
five level fields) equals `curve time source.f (dest.f - source.f) duration`,
computed from the same-named field of `source` and `dest` only. -/
theorem tween_continuous_fields (time duration : ℝ) (source dest : frame_transform ℝ)
    (curve : ℝ → ℝ → ℝ → ℝ → ℝ) :
    (tween time source dest duration curve).volume =
      curve time source.volume (dest.volume - source.volume) duration ∧
    (tween time source dest duration curve).brightness =
      curve time source.brightness (dest.brightness - source.brightness) duration ∧
    (tween time source dest duration curve).contrast =
      curve time source.contrast (dest.contrast - source.contrast) duration ∧
    (tween time source dest duration curve).saturation =
      curve time source.saturation (dest.saturation - source.saturation) duration ∧
    (tween time source dest duration curve).opacity =
      curve time source.opacity (dest.opacity - source.opacity) duration ∧
    (tween time source dest duration curve).anchor.1 =
      curve time source.anchor.1 (dest.anchor.1 - source.anchor.1) duration ∧
    (tween time source dest duration curve).anchor.2 =
      curve time source.anchor.2 (dest.anchor.2 - source.anchor.2) duration ∧
    (tween time source dest duration curve).fill_translation.1 =
      curve time source.fill_translation.1 (dest.fill_translation.1 - source.fill_translation.1) duration ∧
    (tween time source dest duration curve).fill_translation.2 =
      curve time source.fill_translation.2 (dest.fill_translation.2 - source.fill_translation.2) duration ∧
    (tween time source dest duration curve).fill_scale.1 =
      curve time source.fill_scale.1 (dest.fill_scale.1 - source.fill_scale.1) duration ∧
    (tween time source dest duration curve).fill_scale.2 =
      curve time source.fill_scale.2 (dest.fill_scale.2 - source.fill_scale.2) duration ∧
    (tween time source dest duration curve).clip_translation.1 =
      curve time source.clip_translation.1 (dest.clip_translation.1 - source.clip_translation.1) duration ∧
    (tween time source dest duration curve).clip_translation.2 =
      curve time source.clip_translation.2 (dest.clip_translation.2 - source.clip_translation.2) duration ∧
    (tween time source dest duration curve).clip_scale.1 =
      curve time source.clip_scale.1 (dest.clip_scale.1 - source.clip_scale.1) duration ∧
    (tween time source dest duration curve).clip_scale.2 =
      curve time source.clip_scale.2 (dest.clip_scale.2 - source.clip_scale.2) duration ∧
    (tween time source dest duration curve).angle =
      curve time source.angle (dest.angle - source.angle) duration ∧
    (tween time source dest duration curve).levels.min_input =
      curve time source.levels.min_input (dest.levels.min_input - source.levels.min_input) duration ∧
    (tween time source dest duration curve).levels.max_input =
      curve time source.levels.max_input (dest.levels.max_input - source.levels.max_input) duration ∧
    (tween time source dest duration curve).levels.min_output =
      curve time source.levels.min_output (dest.levels.min_output - source.levels.min_output) duration ∧
    (tween time source dest duration curve).levels.max_output =
      curve time source.levels.max_output (dest.levels.max_output - source.levels.max_output) duration ∧
    (tween time source dest duration curve).levels.gamma =
      curve time source.levels.gamma (dest.levels.gamma - source.levels.gamma) duration :=
  ⟨rfl, rfl, rfl, rfl, rfl, rfl, rfl, rfl, rfl, rfl, rfl, rfl, rfl, rfl, rfl, rfl, rfl, rfl, rfl, rfl, rfl⟩

/-! ## Tween endpoints -/

set_option maxRecDepth 100000 in
/-- C11, as the spec states it, fails in the double arithmetic of the source:
with the curve `v + d`, which meets the contract at time `dur`, a source that
is default except for the volume 1e16 and a default destination, whose volume
is 1, the difference `1 - 1e16` that `do_tween` hands to the curve rounds to
`-1e16`, so the tween at time `dur` has the volume 0 and not the volume of the
destination. -/
theorem tween_duration_not_dest :
    round_to_double (10 ^ 16) = 10 ^ 16 ∧
    (⟨1⟩ - ⟨10 ^ 16⟩ : whole_double) = ⟨-10 ^ 16⟩ ∧
    (∀ v d : whole_double,
      (fun _ v d _ => v + d) (1 : whole_double) v d (1 : whole_double) = v + d) ∧
    (tween 1
        { (frame_transform.ctor : frame_transform whole_double) with volume := ⟨10 ^ 16⟩ }
        frame_transform.ctor 1 (fun _ v d _ => v + d)).volume = ⟨0⟩ ∧
    (frame_transform.ctor : frame_transform whole_double).volume = ⟨1⟩ ∧
    ¬ same_continuous_fields
      (tween 1
        { (frame_transform.ctor : frame_transform whole_double) with volume := ⟨10 ^ 16⟩ }
        frame_transform.ctor 1 (fun _ v d _ => v + d))
      frame_transform.ctor := by
  refine ⟨by decide, by decide, fun _ _ => rfl, by decide, rfl, fun h => ?_⟩
  exact absurd h.1 (by decide)

/-- C11, amended: if `curve 0 v d dur = v` for all `v`, `d`, every interpolated
field of `tween 0 S D dur curve` equals the same field of `S`, whatever the
arithmetic is; and over exact real arithmetic, if `curve dur v d dur = v + d`
for all `v`, `d`, every interpolated field of `tween dur S D dur curve` equals
the same field of `D`. -/
theorem tween_endpoints_continuous (S D : frame_transform ℝ) (dur : ℝ)
    (curve : ℝ → ℝ → ℝ → ℝ → ℝ) :
    (∀ (K : Type) [Zero K] [One K] [Sub K] (source dest : frame_transform K) (duration : K)
        (tweener : K → K → K → K → K),
      (∀ v d, tweener 0 v d duration = v) →
      same_continuous_fields (tween 0 source dest duration tweener) source) ∧
    ((∀ v d, curve dur v d dur = v + d) →
      same_continuous_fields (tween dur S D dur curve) D) := by
  constructor
  · intro K _ _ _ source dest duration tweener h
    simp [same_continuous_fields, tween, do_tween, h]
  · intro h
    simp [same_continuous_fields, tween, do_tween, h]

/-- Witness of `tween_endpoints_continuous`: the time-0 half on rounded
doubles, with a curve that returns `v` at time 0 and `v + d` otherwise and the
source volume 1e16; the `dur` half over the reals, with the linear curve
`v + d * t / dur` and duration 2. -/
theorem tween_endpoints_continuous_witness :
    (∀ v d : whole_double,
      (fun t v d _ => if t = 0 then v else v + d) (0 : whole_double) v d 1 = v) ∧
    same_continuous_fields
      (tween 0
        { (frame_transform.ctor : frame_transform whole_double) with volume := ⟨10 ^ 16⟩ }
        frame_transform.ctor 1 (fun t v d _ => if t = 0 then v else v + d))
      { (frame_transform.ctor : frame_transform whole_double) with volume := ⟨10 ^ 16⟩ } ∧
    (∀ v d : ℝ, (fun t v d dur => v + d * t / dur) (2 : ℝ) v d (2 : ℝ) = v + d) ∧
    same_continuous_fields
      (tween 2 (frame_transform.ctor : frame_transform ℝ)
        { (frame_transform.ctor : frame_transform ℝ) with volume := 3 } 2
        (fun t v d dur => v + d * t / dur))
      { (frame_transform.ctor : frame_transform ℝ) with volume := 3 } :=
  ⟨fun v d => by simp,
    (tween_endpoints_continuous frame_transform.ctor
      { (frame_transform.ctor : frame_transform ℝ) with volume := 3 } 2
      (fun t v d dur => v + d * t / dur)).1 whole_double
      { (frame_transform.ctor : frame_transform whole_double) with volume := ⟨10 ^ 16⟩ }
      frame_transform.ctor 1 (fun t v d _ => if t = 0 then v else v + d) (fun v d => by simp),
    fun v d => by simp,
    (tween_endpoints_continuous frame_transform.ctor
      { (frame_transform.ctor : frame_transform ℝ) with volume := 3 } 2
      (fun t v d dur => v + d * t / dur)).2 (fun v d => by simp)⟩

/-- C12, as the spec states it, fails: with the linear curve `v + d * t`, which
returns `v` at time 0, a default source and a destination that is default
except for `is_key = true`, the tween at time 0 has `is_key = true` and so is
not the source. -/
theorem tween_zero_not_source :
    (∀ v d : ℝ, (fun t v d _ => v + d * t) (0 : ℝ) v d (1 : ℝ) = v) ∧
    (tween 0 (frame_transform.ctor : frame_transform ℝ)
      { (frame_transform.ctor : frame_transform ℝ) with is_key := true } 1
      (fun t v d _ => v + d * t)).is_key = true ∧
    (frame_transform.ctor : frame_transform ℝ).is_key = false ∧
    tween 0 (frame_transform.ctor : frame_transform ℝ)
      { (frame_transform.ctor : frame_transform ℝ) with is_key := true } 1
      (fun t v d _ => v + d * t) ≠ frame_transform.ctor := by
  refine ⟨fun v d => by simp, rfl, rfl, fun h => ?_⟩
  have hk := congrArg frame_transform.is_key h
  simp [tween] at hk

/-- C12, amended: under the curve contract at time 0 the tween equals the
source in every interpolated field, whatever the arithmetic is, while its
`field_mode` is the AND and its flags are the ORs of the two endpoints'
values; over exact real arithmetic, under the curve contract at time `dur`
the same holds with the destination.  Hence, over exact real arithmetic, the
tween reproduces the endpoint in every field when source and destination have
the same `field_mode`, `is_key` and `is_mix`. -/
theorem tween_endpoints (S D : frame_transform ℝ) (dur : ℝ) (curve : ℝ → ℝ → ℝ → ℝ → ℝ) :
    (∀ (K : Type) [Zero K] [One K] [Sub K] (source dest : frame_transform K) (duration : K)
        (tweener : K → K → K → K → K),
      (∀ v d, tweener 0 v d duration = v) →
      tween 0 source dest duration tweener =
        { source with field_mode := field_mode.and source.field_mode dest.field_mode
                      is_key := source.is_key || dest.is_key
                      is_mix := source.is_mix || dest.is_mix }) ∧
    ((∀ v d, curve dur v d dur = v + d) →
      tween dur S D dur curve =
        { D with field_mode := field_mode.and S.field_mode D.field_mode
                 is_key := S.is_key || D.is_key
                 is_mix := S.is_mix || D.is_mix }) ∧
    (S.field_mode = D.field_mode → S.is_key = D.is_key → S.is_mix = D.is_mix →
      ((∀ v d, curve 0 v d dur = v) → tween 0 S D dur curve = S) ∧
      ((∀ v d, curve dur v d dur = v + d) → tween dur S D dur curve = D)) := by
  have h0 : ∀ (K : Type) [Zero K] [One K] [Sub K] (source dest : frame_transform K)
      (duration : K) (tweener : K → K → K → K → K),
      (∀ v d, tweener 0 v d duration = v) →
      tween 0 source dest duration tweener =
        { source with field_mode := field_mode.and source.field_mode dest.field_mode
                      is_key := source.is_key || dest.is_key
                      is_mix := source.is_mix || dest.is_mix } := by
    intro K _ _ _ source dest duration tweener h
    apply frame_transform.ext_fields <;> simp [tween, do_tween, h]
  have h1 : (∀ v d, curve dur v d dur = v + d) →
      tween dur S D dur curve =
        { D with field_mode := field_mode.and S.field_mode D.field_mode
                 is_key := S.is_key || D.is_key
                 is_mix := S.is_mix || D.is_mix } := by
    intro h
    apply frame_transform.ext_fields <;> simp [tween, do_tween, h]
  refine ⟨h0, h1, fun hf hk hm => ⟨fun h => ?_, fun h => ?_⟩⟩
  · rw [h0 ℝ S D dur curve h]
    apply frame_transform.ext_fields <;> simp [← hf, ← hk, ← hm, field_mode.and_self]
  · rw [h1 h]
    apply frame_transform.ext_fields <;> simp [hf, hk, hm, field_mode.and_self]

/-- Witness of `tween_endpoints`: the linear curve `v + d * t / dur` with
duration 2, between two transforms with the same discrete fields. -/
theorem tween_endpoints_witness :
    (∀ v d : ℝ, (fun t v d dur => v + d * t / dur) (0 : ℝ) v d (2 : ℝ) = v) ∧
    (∀ v d : ℝ, (fun t v d dur => v + d * t / dur) (2 : ℝ) v d (2 : ℝ) = v + d) ∧
    tween 0 (frame_transform.ctor : frame_transform ℝ)
        { (frame_transform.ctor : frame_transform ℝ) with volume := 3 } 2
        (fun t v d dur => v + d * t / dur) = frame_transform.ctor ∧
    tween 2 (frame_transform.ctor : frame_transform ℝ)
        { (frame_transform.ctor : frame_transform ℝ) with volume := 3 } 2
        (fun t v d dur => v + d * t / dur) =
      { (frame_transform.ctor : frame_transform ℝ) with volume := 3 } :=
  ⟨fun v d => by simp, fun v d => by simp,
    ((tween_endpoints frame_transform.ctor
        { (frame_transform.ctor : frame_transform ℝ) with volume := 3 } 2
        (fun t v d dur => v + d * t / dur)).2.2 rfl rfl rfl).1 (fun v d => by simp),
    ((tween_endpoints frame_transform.ctor
        { (frame_transform.ctor : frame_transform ℝ) with volume := 3 } 2
        (fun t v d dur => v + d * t / dur)).2.2 rfl rfl rfl).2 (fun v d => by simp)⟩

/-- C13: the discrete fields of a tween are not interpolated: `field_mode` is
the AND of the endpoints' field modes and each flag is the OR of the
endpoints' flags, whatever the time, the duration and the curve. -/
theorem tween_discrete_fields (time duration : ℝ) (source dest : frame_transform ℝ)
    (curve : ℝ → ℝ → ℝ → ℝ → ℝ) :
    (tween time source dest duration curve).field_mode =
      field_mode.and source.field_mode dest.field_mode ∧
    (tween time source dest duration curve).is_key = (source.is_key || dest.is_key) ∧
    (tween time source dest duration curve).is_mix = (source.is_mix || dest.is_mix) ∧
    ∀ (time2 duration2 : ℝ) (curve2 : ℝ → ℝ → ℝ → ℝ → ℝ),
      (tween time2 source dest duration2 curve2).field_mode =
        (tween time source dest duration curve).field_mode ∧
      (tween time2 source dest duration2 curve2).is_key =
        (tween time source dest duration curve).is_key ∧
      (tween time2 source dest duration2 curve2).is_mix =
        (tween time source dest duration curve).is_mix :=
  ⟨rfl, rfl, rfl, fun _ _ _ => ⟨rfl, rfl, rfl⟩⟩

/-! ## Equality and ordering -/

set_option maxRecDepth 100000 in
/-- C14, as the spec states it, fails on the x86-64 object representation: the
default transform and the transform that differs from it only in holding
`-0.0` instead of `0.0` in `fill_translation.x` are equal field by field as
numeric values (both patterns denote 0), yet `operator==` is false on them
and `operator!=` is true; and a transform holding a NaN is `operator==` to
itself although the numeric comparison of a NaN with itself is false. -/
theorem operator_eq_not_fieldwise :
    binary64.value 0 = some 0 ∧ binary64.value binary64.neg_zero = some 0 ∧
    fields_equal (frame_transform.ctor : frame_transform binary64)
      { (frame_transform.ctor : frame_transform binary64) with
        fill_translation := (binary64.neg_zero, 0) } = true ∧
    operator_eq object_bytes sizeof_frame_transform
      (frame_transform.ctor : frame_transform binary64)
      { (frame_transform.ctor : frame_transform binary64) with
        fill_translation := (binary64.neg_zero, 0) } = false ∧
    operator_ne object_bytes sizeof_frame_transform
      (frame_transform.ctor : frame_transform binary64)
      { (frame_transform.ctor : frame_transform binary64) with
        fill_translation := (binary64.neg_zero, 0) } = true ∧
    fields_equal
      { (frame_transform.ctor : frame_transform binary64) with volume := binary64.nan }
      { (frame_transform.ctor : frame_transform binary64) with volume := binary64.nan } = false ∧
    operator_eq object_bytes sizeof_frame_transform
      { (frame_transform.ctor : frame_transform binary64) with volume := binary64.nan }
      { (frame_transform.ctor : frame_transform binary64) with volume := binary64.nan } = true := by
  refine ⟨?_, ?_, by decide, by decide, by decide, by decide, by decide⟩
  · have h1 : binary64.exponent 0 = 0 := by decide
    have h2 : binary64.fraction 0 = 0 := by decide
    simp only [binary64.value, h1, h2]
    norm_num
  · have h1 : binary64.exponent binary64.neg_zero = 0 := by decide
    have h2 : binary64.fraction binary64.neg_zero = 0 := by decide
    simp only [binary64.value, h1, h2]
    norm_num

/-- C14, amended: `T1 == T2` holds if and only if the object representations of
`T1` and `T2`, the `sizeof(frame_transform)` bytes that `memcmp` reads, are the
same byte for byte, and `T1 != T2` is the negation of `T1 == T2`; on the
x86-64 representation `T1 == T2` holds if and only if every field of `T1` has
the same bit pattern as the corresponding field of `T2`. -/
theorem operator_eq_iff_same_bytes :
    (∀ (K : Type) (repr : frame_transform K → Nat → Nat) (size : Nat)
        (T1 T2 : frame_transform K),
      (operator_eq repr size T1 T2 = true ↔ ∀ i, i < size → repr T1 i = repr T2 i) ∧
      operator_ne repr size T1 T2 = !operator_eq repr size T1 T2) ∧
    (∀ T1 T2 : frame_transform binary64,
      operator_eq object_bytes sizeof_frame_transform T1 T2 = true ↔ T1 = T2) :=
  ⟨fun _ repr size T1 T2 => ⟨operator_eq_true_iff repr size T1 T2, rfl⟩,
    operator_eq_object_bytes_iff⟩

set_option maxRecDepth 100000 in
/-- C15, as the spec states it, fails on the x86-64 object representation: the
default transform, whose volume is 1.0, and the transform that differs from it
only in having the volume 2.0 compare as `T1 < T2` in the lexicographic
comparison of the field values, whatever the field order, since only one
field differs; but `operator<` is false on `(T1, T2)` and true on `(T2, T1)`,
the bytes of a double being stored least significant first. -/
theorem operator_lt_not_lexicographic_on_values :
    binary64.value 1 = some 1 ∧ binary64.value binary64.two = some 2 ∧
    binary64.num_lt 1 binary64.two = true ∧
    lexicographic_lt (frame_transform.ctor : frame_transform binary64)
      { (frame_transform.ctor : frame_transform binary64) with volume := binary64.two } = true ∧
    operator_lt object_bytes sizeof_frame_transform
      (frame_transform.ctor : frame_transform binary64)
      { (frame_transform.ctor : frame_transform binary64) with volume := binary64.two } = false ∧
    operator_lt object_bytes sizeof_frame_transform
      { (frame_transform.ctor : frame_transform binary64) with volume := binary64.two }
      (frame_transform.ctor : frame_transform binary64) = true := by
  refine ⟨?_, ?_, by decide, by decide, by decide, by decide⟩
  · have h1 : binary64.exponent 1 = 1023 := by decide
    have h2 : binary64.fraction 1 = 0 := by decide
    have h3 : binary64.sign 1 = false := by decide
    simp only [binary64.value, h1, h2, h3]
    norm_num
  · have h1 : binary64.exponent binary64.two = 1024 := by decide
    have h2 : binary64.fraction binary64.two = 0 := by decide
    have h3 : binary64.sign binary64.two = false := by decide
    simp only [binary64.value, h1, h2, h3]
    norm_num

/-- C15, amended: for every object representation, `operator<` is a strict
weak ordering that is total with respect to `operator==`: it is irreflexive
and transitive, `operator==` is transitive, and for all `T1`, `T2` exactly one
of `T1 < T2`, `T1 == T2`, `T2 < T1` holds; and it is the lexicographic
comparison of the bytes of the two object representations, as unsigned values
in address order: `T1 < T2` holds if and only if at the first offset where the
representations differ the byte of `T1` is the smaller one. -/
theorem operator_lt_strict_weak_order {K : Type} (repr : frame_transform K → Nat → Nat)
    (size : Nat) :
    (∀ T, operator_lt repr size T T = false) ∧
    (∀ T1 T2 T3, operator_lt repr size T1 T2 = true → operator_lt repr size T2 T3 = true →
      operator_lt repr size T1 T3 = true) ∧
    (∀ T1 T2 T3, operator_eq repr size T1 T2 = true → operator_eq repr size T2 T3 = true →
      operator_eq repr size T1 T3 = true) ∧
    (∀ T1 T2,
      (operator_lt repr size T1 T2 = true ∧ operator_eq repr size T1 T2 = false ∧
        operator_lt repr size T2 T1 = false) ∨
      (operator_lt repr size T1 T2 = false ∧ operator_eq repr size T1 T2 = true ∧
        operator_lt repr size T2 T1 = false) ∨
      (operator_lt repr size T1 T2 = false ∧ operator_eq repr size T1 T2 = false ∧
        operator_lt repr size T2 T1 = true)) ∧
    (∀ T1 T2, operator_lt repr size T1 T2 = true ↔
      ∃ i, i < size ∧ (∀ j, j < i → repr T1 j = repr T2 j) ∧ repr T1 i < repr T2 i) := by
  refine ⟨?_, ?_, ?_, ?_, fun T1 T2 => operator_lt_true_iff repr size T1 T2⟩
  · intro T
    simp [operator_lt, memcmp_self]
  · intro T1 T2 T3 h12 h23
    simp only [operator_lt, decide_eq_true_iff] at h12 h23 ⊢
    exact memcmp_lt_trans _ _ _ _ h12 h23
  · intro T1 T2 T3 h12 h23
    rw [operator_eq_true_iff] at h12 h23 ⊢
    intro i hi
    rw [h12 i hi]
    exact h23 i hi
  · intro T1 T2
    have hs := memcmp_swap_neg (repr T1) (repr T2) size
    simp only [operator_lt, operator_eq, decide_eq_true_iff, decide_eq_false_iff_not, hs]
    rcases memcmp_values (repr T1) (repr T2) size with h | h | h
    · right
      left
      simp [h]
    · left
      simp [h]
    · right
      right
      simp [h]

/-! ## The aspect-ratio slot -/

/-- C17: on the aspect-ratio slot of one thread, `get_current_aspect_ratio` on
a never-set slot returns 1; after `set_current_aspect_ratio v` it returns `v`,
whatever the slot held before (also when it was unset, and also after an
earlier set); and a `get_current_aspect_ratio` does not change the value a
later one returns. -/
theorem aspect_ratio_slot :
    (get_current_aspect_ratio (none : Option ℝ)).1 = 1 ∧
    (∀ (v : ℝ) (slot : Option ℝ),
      (get_current_aspect_ratio (set_current_aspect_ratio v slot)).1 = v) ∧
    (∀ v : ℝ, (get_current_aspect_ratio (set_current_aspect_ratio v none)).1 = v) ∧
    (∀ (u v : ℝ) (slot : Option ℝ),
      (get_current_aspect_ratio
        (set_current_aspect_ratio v (set_current_aspect_ratio u slot))).1 = v) ∧
    (∀ slot : Option ℝ,
      (get_current_aspect_ratio (get_current_aspect_ratio slot).2).1 =
        (get_current_aspect_ratio slot).1) := by
  refine ⟨rfl, ?_, fun v => rfl, ?_, ?_⟩
  · intro v slot
    cases slot <;> rfl
  · intro u v slot
    cases slot <;> rfl
  · intro slot
    cases slot <;> rfl

/-! ## The default transform -/

/-- C18: the default-constructed transform has the identity defaults: the five
scalars are 1; anchor, fill translation and clip translation are `(0, 0)`; fill
scale and clip scale are `(1, 1)`; the angle is 0; the levels are 0, 1, 0, 1
and gamma 1; both flags are false; and the field mode has all mode bits set,
so that `m AND default.field_mode = m` for every field mode `m`. -/
theorem ctor_defaults :
    (frame_transform.ctor : frame_transform ℝ).volume = 1 ∧
    (frame_transform.ctor : frame_transform ℝ).opacity = 1 ∧
    (frame_transform.ctor : frame_transform ℝ).brightness = 1 ∧
    (frame_transform.ctor : frame_transform ℝ).contrast = 1 ∧
    (frame_transform.ctor : frame_transform ℝ).saturation = 1 ∧
    (frame_transform.ctor : frame_transform ℝ).anchor = (0, 0) ∧
    (frame_transform.ctor : frame_transform ℝ).fill_translation = (0, 0) ∧
    (frame_transform.ctor : frame_transform ℝ).clip_translation = (0, 0) ∧
    (frame_transform.ctor : frame_transform ℝ).fill_scale = (1, 1) ∧
    (frame_transform.ctor : frame_transform ℝ).clip_scale = (1, 1) ∧
    (frame_transform.ctor : frame_transform ℝ).angle = 0 ∧
    (frame_transform.ctor : frame_transform ℝ).levels.min_input = 0 ∧
    (frame_transform.ctor : frame_transform ℝ).levels.max_input = 1 ∧
    (frame_transform.ctor : frame_transform ℝ).levels.min_output = 0 ∧
    (frame_transform.ctor : frame_transform ℝ).levels.max_output = 1 ∧
    (frame_transform.ctor : frame_transform ℝ).levels.gamma = 1 ∧
    (frame_transform.ctor : frame_transform ℝ).is_key = false ∧
    (frame_transform.ctor : frame_transform ℝ).is_mix = false ∧
    (frame_transform.ctor : frame_transform ℝ).field_mode = field_mode.progressive ∧
    (∀ i : Nat, i < 2 →
      (frame_transform.ctor : frame_transform ℝ).field_mode.value.testBit i = true) ∧
    (∀ m : field_mode,
      m.value &&& (frame_transform.ctor : frame_transform ℝ).field_mode.value = m.value) ∧
    (∀ m : field_mode,
      field_mode.and m (frame_transform.ctor : frame_transform ℝ).field_mode = m) := by
  refine ⟨rfl, rfl, rfl, rfl, rfl, rfl, rfl, rfl, rfl, rfl, rfl, rfl, rfl, rfl, rfl, rfl, rfl,
    rfl, rfl, ?_, ?_, ?_⟩
  · intro i hi
    have h : i = 0 ∨ i = 1 := by omega
    rcases h with h | h <;> subst h <;> decide
  · intro m
    cases m <;> decide
  · intro m
    cases m <;> rfl

/-! ## Associativity, field by field -/

/-- C19: for every three transforms and every non-zero current aspect ratio,
`(A * B) * C` and `A * (B * C)` agree on every field other than
`fill_translation`; and they agree on `fill_translation` as well whenever
`A.angle = 0` or the fill scale of `B` is uniform. -/
theorem mul_assoc_fieldwise (slot : Option ℝ) (A B C : frame_transform ℝ)
    (ha : (get_current_aspect_ratio slot).1 ≠ 0) :
    (frame_transform.mul Real.cos Real.sin (frame_transform.mul Real.cos Real.sin slot A B).2
        (frame_transform.mul Real.cos Real.sin slot A B).1 C).1.volume =
      (frame_transform.mul Real.cos Real.sin (frame_transform.mul Real.cos Real.sin slot B C).2
        A (frame_transform.mul Real.cos Real.sin slot B C).1).1.volume ∧
    (frame_transform.mul Real.cos Real.sin (frame_transform.mul Real.cos Real.sin slot A B).2
        (frame_transform.mul Real.cos Real.sin slot A B).1 C).1.opacity =
      (frame_transform.mul Real.cos Real.sin (frame_transform.mul Real.cos Real.sin slot B C).2
        A (frame_transform.mul Real.cos Real.sin slot B C).1).1.opacity ∧
    (frame_transform.mul Real.cos Real.sin (frame_transform.mul Real.cos Real.sin slot A B).2
        (frame_transform.mul Real.cos Real.sin slot A B).1 C).1.brightness =
      (frame_transform.mul Real.cos Real.sin (frame_transform.mul Real.cos Real.sin slot B C).2
        A (frame_transform.mul Real.cos Real.sin slot B C).1).1.brightness ∧
    (frame_transform.mul Real.cos Real.sin (frame_transform.mul Real.cos Real.sin slot A B).2
        (frame_transform.mul Real.cos Real.sin slot A B).1 C).1.contrast =
      (frame_transform.mul Real.cos Real.sin (frame_transform.mul Real.cos Real.sin slot B C).2
        A (frame_transform.mul Real.cos Real.sin slot B C).1).1.contrast ∧
    (frame_transform.mul Real.cos Real.sin (frame_transform.mul Real.cos Real.sin slot A B).2
        (frame_transform.mul Real.cos Real.sin slot A B).1 C).1.saturation =
      (frame_transform.mul Real.cos Real.sin (frame_transform.mul Real.cos Real.sin slot B C).2
        A (frame_transform.mul Real.cos Real.sin slot B C).1).1.saturation ∧
    (frame_transform.mul Real.cos Real.sin (frame_transform.mul Real.cos Real.sin slot A B).2
        (frame_transform.mul Real.cos Real.sin slot A B).1 C).1.anchor =
      (frame_transform.mul Real.cos Real.sin (frame_transform.mul Real.cos Real.sin slot B C).2
        A (frame_transform.mul Real.cos Real.sin slot B C).1).1.anchor ∧
    (frame_transform.mul Real.cos Real.sin (frame_transform.mul Real.cos Real.sin slot A B).2
        (frame_transform.mul Real.cos Real.sin slot A B).1 C).1.fill_scale =
      (frame_transform.mul Real.cos Real.sin (frame_transform.mul Real.cos Real.sin slot B C).2
        A (frame_transform.mul Real.cos Real.sin slot B C).1).1.fill_scale ∧
    (frame_transform.mul Real.cos Real.sin (frame_transform.mul Real.cos Real.sin slot A B).2
        (frame_transform.mul Real.cos Real.sin slot A B).1 C).1.clip_translation =
      (frame_transform.mul Real.cos Real.sin (frame_transform.mul Real.cos Real.sin slot B C).2
        A (frame_transform.mul Real.cos Real.sin slot B C).1).1.clip_translation ∧
    (frame_transform.mul Real.cos Real.sin (frame_transform.mul Real.cos Real.sin slot A B).2
        (frame_transform.mul Real.cos Real.sin slot A B).1 C).1.clip_scale =
      (frame_transform.mul Real.cos Real.sin (frame_transform.mul Real.cos Real.sin slot B C).2
        A (frame_transform.mul Real.cos Real.sin slot B C).1).1.clip_scale ∧
    (frame_transform.mul Real.cos Real.sin (frame_transform.mul Real.cos Real.sin slot A B).2
        (frame_transform.mul Real.cos Real.sin slot A B).1 C).1.angle =
      (frame_transform.mul Real.cos Real.sin (frame_transform.mul Real.cos Real.sin slot B C).2
        A (frame_transform.mul Real.cos Real.sin slot B C).1).1.angle ∧
    (frame_transform.mul Real.cos Real.sin (frame_transform.mul Real.cos Real.sin slot A B).2
        (frame_transform.mul Real.cos Real.sin slot A B).1 C).1.levels.min_input =
      (frame_transform.mul Real.cos Real.sin (frame_transform.mul Real.cos Real.sin slot B C).2
        A (frame_transform.mul Real.cos Real.sin slot B C).1).1.levels.min_input ∧
    (frame_transform.mul Real.cos Real.sin (frame_transform.mul Real.cos Real.sin slot A B).2
        (frame_transform.mul Real.cos Real.sin slot A B).1 C).1.levels.max_input =
      (frame_transform.mul Real.cos Real.sin (frame_transform.mul Real.cos Real.sin slot B C).2
        A (frame_transform.mul Real.cos Real.sin slot B C).1).1.levels.max_input ∧
    (frame_transform.mul Real.cos Real.sin (frame_transform.mul Real.cos Real.sin slot A B).2
        (frame_transform.mul Real.cos Real.sin slot A B).1 C).1.levels.min_output =
      (frame_transform.mul Real.cos Real.sin (frame_transform.mul Real.cos Real.sin slot B C).2
        A (frame_transform.mul Real.cos Real.sin slot B C).1).1.levels.min_output ∧
    (frame_transform.mul Real.cos Real.sin (frame_transform.mul Real.cos Real.sin slot A B).2
        (frame_transform.mul Real.cos Real.sin slot A B).1 C).1.levels.max_output =
      (frame_transform.mul Real.cos Real.sin (frame_transform.mul Real.cos Real.sin slot B C).2
        A (frame_transform.mul Real.cos Real.sin slot B C).1).1.levels.max_output ∧
    (frame_transform.mul Real.cos Real.sin (frame_transform.mul Real.cos Real.sin slot A B).2
        (frame_transform.mul Real.cos Real.sin slot A B).1 C).1.levels.gamma =
      (frame_transform.mul Real.cos Real.sin (frame_transform.mul Real.cos Real.sin slot B C).2
        A (frame_transform.mul Real.cos Real.sin slot B C).1).1.levels.gamma ∧
    (frame_transform.mul Real.cos Real.sin (frame_transform.mul Real.cos Real.sin slot A B).2
        (frame_transform.mul Real.cos Real.sin slot A B).1 C).1.field_mode =
      (frame_transform.mul Real.cos Real.sin (frame_transform.mul Real.cos Real.sin slot B C).2
        A (frame_transform.mul Real.cos Real.sin slot B C).1).1.field_mode ∧
    (frame_transform.mul Real.cos Real.sin (frame_transform.mul Real.cos Real.sin slot A B).2
        (frame_transform.mul Real.cos Real.sin slot A B).1 C).1.is_key =
      (frame_transform.mul Real.cos Real.sin (frame_transform.mul Real.cos Real.sin slot B C).2
        A (frame_transform.mul Real.cos Real.sin slot B C).1).1.is_key ∧
    (frame_transform.mul Real.cos Real.sin (frame_transform.mul Real.cos Real.sin slot A B).2
        (frame_transform.mul Real.cos Real.sin slot A B).1 C).1.is_mix =
      (frame_transform.mul Real.cos Real.sin (frame_transform.mul Real.cos Real.sin slot B C).2
        A (frame_transform.mul Real.cos Real.sin slot B C).1).1.is_mix ∧
    (A.angle = 0 ∨ B.fill_scale.1 = B.fill_scale.2 →
      (frame_transform.mul Real.cos Real.sin (frame_transform.mul Real.cos Real.sin slot A B).2
        (frame_transform.mul Real.cos Real.sin slot A B).1 C).1.fill_translation =
        (frame_transform.mul Real.cos Real.sin (frame_transform.mul Real.cos Real.sin slot B C).2
        A (frame_transform.mul Real.cos Real.sin slot B C).1).1.fill_translation) := by
  have h := frame_transform.mul_assoc_except_fill_translation slot A B C
  refine ⟨?_, ?_, ?_, ?_, ?_, ?_, ?_, ?_, ?_, ?_, ?_, ?_, ?_, ?_, ?_, ?_, ?_, ?_,
    fun hc => frame_transform.mul_assoc_fill_translation slot A B C ha hc⟩
  all_goals
    rw [h]

/-- Witness of `mul_assoc_fieldwise`: aspect ratio 2, an unrotated parent with
a non-uniform fill scale, and a rotated, non-uniformly scaled middle
transform. -/
theorem mul_assoc_fieldwise_witness :
    (get_current_aspect_ratio (some (2 : ℝ))).1 ≠ 0 ∧
    (frame_transform.mul Real.cos Real.sin
        (frame_transform.mul Real.cos Real.sin (some 2)
          { (frame_transform.ctor : frame_transform ℝ) with fill_scale := (2, 3) }
          { (frame_transform.ctor : frame_transform ℝ) with
            fill_scale := (5, 7), angle := 1 }).2
        (frame_transform.mul Real.cos Real.sin (some 2)
          { (frame_transform.ctor : frame_transform ℝ) with fill_scale := (2, 3) }
          { (frame_transform.ctor : frame_transform ℝ) with
            fill_scale := (5, 7), angle := 1 }).1
        { (frame_transform.ctor : frame_transform ℝ) with
          fill_translation := (1, 1) }).1.fill_translation =
      (frame_transform.mul Real.cos Real.sin
        (frame_transform.mul Real.cos Real.sin (some 2)
          { (frame_transform.ctor : frame_transform ℝ) with
            fill_scale := (5, 7), angle := 1 }
          { (frame_transform.ctor : frame_transform ℝ) with fill_translation := (1, 1) }).2
        { (frame_transform.ctor : frame_transform ℝ) with fill_scale := (2, 3) }
        (frame_transform.mul Real.cos Real.sin (some 2)
          { (frame_transform.ctor : frame_transform ℝ) with
            fill_scale := (5, 7), angle := 1 }
          { (frame_transform.ctor : frame_transform ℝ) with
            fill_translation := (1, 1) }).1).1.fill_translation :=
  ⟨by rw [get_current_aspect_ratio_some_fst]; norm_num,
    (mul_assoc_fieldwise (some 2)
      { (frame_transform.ctor : frame_transform ℝ) with fill_scale := (2, 3) }
      { (frame_transform.ctor : frame_transform ℝ) with fill_scale := (5, 7), angle := 1 }
      { (frame_transform.ctor : frame_transform ℝ) with fill_translation := (1, 1) }
      (by rw [get_current_aspect_ratio_some_fst]; norm_num)).2.2.2.2.2.2.2.2.2.2.2.2.2.2.2.2.2.2
      (Or.inl rfl)⟩

/-! ## Independence of the aspect ratio -/

/-- C20: for every two slots with non-zero current aspect ratios, the two
runs of `P * C` agree on every field other than `fill_translation`; and when
`P.angle = 0` they agree on every field, the division of the child's `y`
translation by the aspect ratio and the later multiplication cancelling. -/
theorem mul_aspect_ratio_independent (slot1 slot2 : Option ℝ) (P C : frame_transform ℝ)
    (h1 : (get_current_aspect_ratio slot1).1 ≠ 0)
    (h2 : (get_current_aspect_ratio slot2).1 ≠ 0) :
    (frame_transform.mul Real.cos Real.sin slot1 P C).1 =
      { (frame_transform.mul Real.cos Real.sin slot2 P C).1 with
        fill_translation :=
          (frame_transform.mul Real.cos Real.sin slot1 P C).1.fill_translation } ∧
    (P.angle = 0 →
      (frame_transform.mul Real.cos Real.sin slot1 P C).1 =
        (frame_transform.mul Real.cos Real.sin slot2 P C).1) := by
  have hrest : (frame_transform.mul Real.cos Real.sin slot1 P C).1 =
      { (frame_transform.mul Real.cos Real.sin slot2 P C).1 with
        fill_translation :=
          (frame_transform.mul Real.cos Real.sin slot1 P C).1.fill_translation } := by
    apply frame_transform.ext_fields <;> rfl
  refine ⟨hrest, fun hP => ?_⟩
  rw [hrest]
  apply frame_transform.ext_fields <;> try rfl
  simp only [frame_transform.mul_fill_translation, hP, Real.cos_zero, Real.sin_zero,
    Prod.mk.injEq]
  constructor
  · ring
  · field_simp

/-- Witness of `mul_aspect_ratio_independent`: aspect ratios 1 and 2, an
unrotated parent with fill scale `(2, 3)` and a child translated by
`(3, 4)`. -/
theorem mul_aspect_ratio_independent_witness :
    (get_current_aspect_ratio (some (1 : ℝ))).1 ≠ 0 ∧
    (get_current_aspect_ratio (some (2 : ℝ))).1 ≠ 0 ∧
    (frame_transform.mul Real.cos Real.sin (some 1)
        { (frame_transform.ctor : frame_transform ℝ) with fill_scale := (2, 3) }
        { (frame_transform.ctor : frame_transform ℝ) with fill_translation := (3, 4) }).1 =
      (frame_transform.mul Real.cos Real.sin (some 2)
        { (frame_transform.ctor : frame_transform ℝ) with fill_scale := (2, 3) }
        { (frame_transform.ctor : frame_transform ℝ) with fill_translation := (3, 4) }).1 :=
  ⟨by rw [get_current_aspect_ratio_some_fst]; norm_num,
    by rw [get_current_aspect_ratio_some_fst]; norm_num,
    (mul_aspect_ratio_independent (some 1) (some 2)
      { (frame_transform.ctor : frame_transform ℝ) with fill_scale := (2, 3) }
      { (frame_transform.ctor : frame_transform ℝ) with fill_translation := (3, 4) }
      (by rw [get_current_aspect_ratio_some_fst]; norm_num)
      (by rw [get_current_aspect_ratio_some_fst]; norm_num)).2 rfl⟩



end caspar.core
